import Mathlib

/-!
# Verification of the pulley analytical solutions

Shallow embedding of the `pulley_analytical_solutions` repository: the
notebook solves, in exact real arithmetic, for the arc construction points
of a GT-style pulley tooth profile.  The final solution list `final_sol`
is an ordered sequence of closed-form expressions, each allowed to refer
to earlier entries (forward substitution).  We transcribe every entry of
`final_sol` as a real-valued function of the parameter record and prove
the specified properties about them.

Conventions:
* `Params` is the record of the nine parameter symbols of the notebook
  (`RAB, RBC, RCD, b, h, PLD, t, PD, P`); the reference notebook supplies
  `PD` directly as a constant.
* Each entry of `final_sol` becomes a definition with the same name,
  with the printed closed form transcribed verbatim (the square-root
  argument of stage 1, printed inline several times, is named `Delta`,
  and the stage-2 square-root argument is named `Qarg`).
-/

namespace Pulley

noncomputable section

/-- ParameterSet: the parameter symbols of the notebook, in the order of the
`params` list.  The reference value set is
`[0.555, 1, 0.15, 0.4, 0.75, 0.254, 10, 6.36619772368, 2]`. -/
structure Params where
  RAB : ℝ
  RBC : ℝ
  RCD : ℝ
  b : ℝ
  h : ℝ
  PLD : ℝ
  t : ℝ
  PD : ℝ
  P : ℝ

/-- The substitution `L_sub = PD / 2 - PLD - h + RAB` of the notebook. -/
def L (p : Params) : ℝ := p.PD / 2 - p.PLD - p.h + p.RAB

/-- The argument of the stage-1 square root, exactly as printed inside every
stage-1 entry of `final_sol`:
`RAB**2 - 2*RAB*RBC + RBC**2 + 4*(PD/2 - PLD + RAB - h)**2*sin(b/PD)**4
 - 4*(PD/2 - PLD + RAB - h)**2*sin(b/PD)**2`. -/
def Delta (p : Params) : ℝ :=
  p.RAB^2 - 2*p.RAB*p.RBC + p.RBC^2
    + 4*(p.PD/2 - p.PLD + p.RAB - p.h)^2*Real.sin (p.b/p.PD)^4
    - 4*(p.PD/2 - p.PLD + p.RAB - p.h)^2*Real.sin (p.b/p.PD)^2

/-- `final_sol` entry `AX` (stage 1, hand-picked root `res_1[1]`). -/
def AX (p : Params) : ℝ :=
  (-2*p.RAB^2*(p.PD/2 - p.PLD + p.RAB - p.h)*Real.sin (p.b/p.PD)^2
    + p.RAB^2*(p.PD/2 - p.PLD + p.RAB - p.h)
    + p.RAB^2*Real.sqrt (Delta p)
    - 2*p.RAB*p.RBC*(p.PD/2 - p.PLD + p.RAB - p.h)*Real.sin (p.b/p.PD)^2
    + p.RAB*p.RBC*(p.PD/2 - p.PLD + p.RAB - p.h)
    + p.RAB*p.RBC*Real.sqrt (Delta p)
    + 256*(p.PD/2 - p.PLD + p.RAB - p.h)^3*Real.sin (p.b/p.PD)^18
    - 1152*(p.PD/2 - p.PLD + p.RAB - p.h)^3*Real.sin (p.b/p.PD)^16
    + 2112*(p.PD/2 - p.PLD + p.RAB - p.h)^3*Real.sin (p.b/p.PD)^14
    + 256*(p.PD/2 - p.PLD + p.RAB - p.h)^3*Real.sin (p.b/p.PD)^12*Real.cos (p.b/p.PD)^6
    - 2016*(p.PD/2 - p.PLD + p.RAB - p.h)^3*Real.sin (p.b/p.PD)^12
    - 384*(p.PD/2 - p.PLD + p.RAB - p.h)^3*Real.sin (p.b/p.PD)^10*Real.cos (p.b/p.PD)^6
    + 1056*(p.PD/2 - p.PLD + p.RAB - p.h)^3*Real.sin (p.b/p.PD)^10
    + 192*(p.PD/2 - p.PLD + p.RAB - p.h)^3*Real.sin (p.b/p.PD)^8*Real.cos (p.b/p.PD)^6
    - 288*(p.PD/2 - p.PLD + p.RAB - p.h)^3*Real.sin (p.b/p.PD)^8
    - 32*(p.PD/2 - p.PLD + p.RAB - p.h)^3*Real.sin (p.b/p.PD)^6*Real.cos (p.b/p.PD)^6
    + 32*(p.PD/2 - p.PLD + p.RAB - p.h)^3*Real.sin (p.b/p.PD)^6)
    * Real.sin (2*p.b/p.PD) / (p.RAB^2 - p.RBC^2)

/-- `final_sol` entry `AY`. -/
def AY (p : Params) : ℝ :=
  (4*p.RAB^2*(p.PD/2 - p.PLD + p.RAB - p.h)*Real.sin (p.b/p.PD)^4
    - 4*p.RAB^2*(p.PD/2 - p.PLD + p.RAB - p.h)*Real.sin (p.b/p.PD)^2
    + p.RAB^2*(p.PD/2 - p.PLD + p.RAB - p.h)
    - 2*p.RAB^2*Real.sqrt (Delta p)*Real.sin (p.b/p.PD)^2
    + p.RAB^2*Real.sqrt (Delta p)
    + 4*p.RAB*p.RBC*(p.PD/2 - p.PLD + p.RAB - p.h)*Real.sin (p.b/p.PD)^4
    - 4*p.RAB*p.RBC*(p.PD/2 - p.PLD + p.RAB - p.h)*Real.sin (p.b/p.PD)^2
    - 2*p.RAB*p.RBC*Real.sqrt (Delta p)*Real.sin (p.b/p.PD)^2
    + p.RAB*p.RBC*Real.sqrt (Delta p)
    - p.RBC^2*(p.PD/2 - p.PLD + p.RAB - p.h)
    - 512*(p.PD/2 - p.PLD + p.RAB - p.h)^3*Real.sin (p.b/p.PD)^20
    + 2560*(p.PD/2 - p.PLD + p.RAB - p.h)^3*Real.sin (p.b/p.PD)^18
    - 5248*(p.PD/2 - p.PLD + p.RAB - p.h)^3*Real.sin (p.b/p.PD)^16
    - 512*(p.PD/2 - p.PLD + p.RAB - p.h)^3*Real.sin (p.b/p.PD)^14*Real.cos (p.b/p.PD)^6
    + 5632*(p.PD/2 - p.PLD + p.RAB - p.h)^3*Real.sin (p.b/p.PD)^14
    + 1024*(p.PD/2 - p.PLD + p.RAB - p.h)^3*Real.sin (p.b/p.PD)^12*Real.cos (p.b/p.PD)^6
    - 3328*(p.PD/2 - p.PLD + p.RAB - p.h)^3*Real.sin (p.b/p.PD)^12
    - 640*(p.PD/2 - p.PLD + p.RAB - p.h)^3*Real.sin (p.b/p.PD)^10*Real.cos (p.b/p.PD)^6
    + 1024*(p.PD/2 - p.PLD + p.RAB - p.h)^3*Real.sin (p.b/p.PD)^10
    + 128*(p.PD/2 - p.PLD + p.RAB - p.h)^3*Real.sin (p.b/p.PD)^8*Real.cos (p.b/p.PD)^6
    - 128*(p.PD/2 - p.PLD + p.RAB - p.h)^3*Real.sin (p.b/p.PD)^8)
    / (p.RAB^2 - p.RBC^2)

/-- `final_sol` entry `BX`. -/
def BX (p : Params) : ℝ :=
  (2*p.RAB^2*(p.PD/2 - p.PLD + p.RAB - p.h)*Real.sin (p.b/p.PD)^2
    - p.RAB^2*(p.PD/2 - p.PLD + p.RAB - p.h)
    - p.RAB^2*Real.sqrt (Delta p)
    + 2*p.RAB*p.RBC*(p.PD/2 - p.PLD + p.RAB - p.h)*Real.sin (p.b/p.PD)^2
    - p.RAB*p.RBC*(p.PD/2 - p.PLD + p.RAB - p.h)
    - p.RAB*p.RBC*Real.sqrt (Delta p)
    - 256*(p.PD/2 - p.PLD + p.RAB - p.h)^3*Real.sin (p.b/p.PD)^18
    + 1152*(p.PD/2 - p.PLD + p.RAB - p.h)^3*Real.sin (p.b/p.PD)^16
    - 2112*(p.PD/2 - p.PLD + p.RAB - p.h)^3*Real.sin (p.b/p.PD)^14
    - 256*(p.PD/2 - p.PLD + p.RAB - p.h)^3*Real.sin (p.b/p.PD)^12*Real.cos (p.b/p.PD)^6
    + 2016*(p.PD/2 - p.PLD + p.RAB - p.h)^3*Real.sin (p.b/p.PD)^12
    + 384*(p.PD/2 - p.PLD + p.RAB - p.h)^3*Real.sin (p.b/p.PD)^10*Real.cos (p.b/p.PD)^6
    - 1056*(p.PD/2 - p.PLD + p.RAB - p.h)^3*Real.sin (p.b/p.PD)^10
    - 192*(p.PD/2 - p.PLD + p.RAB - p.h)^3*Real.sin (p.b/p.PD)^8*Real.cos (p.b/p.PD)^6
    + 288*(p.PD/2 - p.PLD + p.RAB - p.h)^3*Real.sin (p.b/p.PD)^8
    + 32*(p.PD/2 - p.PLD + p.RAB - p.h)^3*Real.sin (p.b/p.PD)^6*Real.cos (p.b/p.PD)^6
    - 32*(p.PD/2 - p.PLD + p.RAB - p.h)^3*Real.sin (p.b/p.PD)^6)
    * Real.sin (2*p.b/p.PD) / (p.RAB^2 - p.RBC^2)

/-- `final_sol` entry `BY` (printed form identical to `AY`). -/
def BY (p : Params) : ℝ :=
  (4*p.RAB^2*(p.PD/2 - p.PLD + p.RAB - p.h)*Real.sin (p.b/p.PD)^4
    - 4*p.RAB^2*(p.PD/2 - p.PLD + p.RAB - p.h)*Real.sin (p.b/p.PD)^2
    + p.RAB^2*(p.PD/2 - p.PLD + p.RAB - p.h)
    - 2*p.RAB^2*Real.sqrt (Delta p)*Real.sin (p.b/p.PD)^2
    + p.RAB^2*Real.sqrt (Delta p)
    + 4*p.RAB*p.RBC*(p.PD/2 - p.PLD + p.RAB - p.h)*Real.sin (p.b/p.PD)^4
    - 4*p.RAB*p.RBC*(p.PD/2 - p.PLD + p.RAB - p.h)*Real.sin (p.b/p.PD)^2
    - 2*p.RAB*p.RBC*Real.sqrt (Delta p)*Real.sin (p.b/p.PD)^2
    + p.RAB*p.RBC*Real.sqrt (Delta p)
    - p.RBC^2*(p.PD/2 - p.PLD + p.RAB - p.h)
    - 512*(p.PD/2 - p.PLD + p.RAB - p.h)^3*Real.sin (p.b/p.PD)^20
    + 2560*(p.PD/2 - p.PLD + p.RAB - p.h)^3*Real.sin (p.b/p.PD)^18
    - 5248*(p.PD/2 - p.PLD + p.RAB - p.h)^3*Real.sin (p.b/p.PD)^16
    - 512*(p.PD/2 - p.PLD + p.RAB - p.h)^3*Real.sin (p.b/p.PD)^14*Real.cos (p.b/p.PD)^6
    + 5632*(p.PD/2 - p.PLD + p.RAB - p.h)^3*Real.sin (p.b/p.PD)^14
    + 1024*(p.PD/2 - p.PLD + p.RAB - p.h)^3*Real.sin (p.b/p.PD)^12*Real.cos (p.b/p.PD)^6
    - 3328*(p.PD/2 - p.PLD + p.RAB - p.h)^3*Real.sin (p.b/p.PD)^12
    - 640*(p.PD/2 - p.PLD + p.RAB - p.h)^3*Real.sin (p.b/p.PD)^10*Real.cos (p.b/p.PD)^6
    + 1024*(p.PD/2 - p.PLD + p.RAB - p.h)^3*Real.sin (p.b/p.PD)^10
    + 128*(p.PD/2 - p.PLD + p.RAB - p.h)^3*Real.sin (p.b/p.PD)^8*Real.cos (p.b/p.PD)^6
    - 128*(p.PD/2 - p.PLD + p.RAB - p.h)^3*Real.sin (p.b/p.PD)^8)
    / (p.RAB^2 - p.RBC^2)

/-- `final_sol` entry `ABX`. -/
def ABX (_p : Params) : ℝ := 0

/-- `final_sol` entry `ABY = PD/2 - PLD + RAB - h`. -/
def ABY (p : Params) : ℝ := p.PD/2 - p.PLD + p.RAB - p.h

/-- `final_sol` entry `BCX`. -/
def BCX (p : Params) : ℝ :=
  (-p.PD/2 + p.PLD - p.RAB + p.h
    + 2*(p.PD/2 - p.PLD + p.RAB - p.h)*Real.sin (p.b/p.PD)^2
    - Real.sqrt (Delta p)) * Real.sin (2*p.b/p.PD)

/-- `final_sol` entry `BCY`. -/
def BCY (p : Params) : ℝ :=
  (p.PD/2 - p.PLD + p.RAB - p.h
    - 2*(p.PD/2 - p.PLD + p.RAB - p.h)*Real.sin (p.b/p.PD)^2
    + Real.sqrt (Delta p)) * Real.cos (2*p.b/p.PD)

/-- `final_sol` entry `RBXY` (the shared flank radius, `|BC|`). -/
def RBXY (p : Params) : ℝ :=
  p.PD/2 - p.PLD + p.RAB - p.h
    - 2*(p.PD/2 - p.PLD + p.RAB - p.h)*Real.sin (p.b/p.PD)^2
    + Real.sqrt (Delta p)

/-- The argument of the stage-2 square root, exactly as printed inside the
`CDY` entry of `final_sol` (a function of the stage-1 values `BCX`, `BCY`
and the parameters). -/
def Qarg (BCX BCY PD PLD RBC RCD : ℝ) : ℝ :=
  -(4*BCX^2 + 4*BCY^2 - PD^2 + 4*PD*PLD - 4*PD*RBC - 4*PLD^2 + 8*PLD*RBC - 4*RBC^2)
    * (4*BCX^2 + 4*BCY^2 - PD^2 + 4*PD*PLD + 4*PD*RBC + 8*PD*RCD - 4*PLD^2
        - 8*PLD*RBC - 16*PLD*RCD - 4*RBC^2 - 16*RBC*RCD - 16*RCD^2)

/-- `final_sol` entry `CDY` as a function of the stage-1 values (the notebook
prints it inline in terms of `BCX`, `BCY`). -/
def CDYg (BCX BCY PD PLD RBC RCD : ℝ) : ℝ :=
  -BCX*Real.sqrt (Qarg BCX BCY PD PLD RBC RCD)/(8*(BCX^2 + BCY^2))
    + BCY*(4*BCX^2 + 4*BCY^2 + PD^2 - 4*PD*PLD - 4*PD*RCD + 4*PLD^2 + 8*PLD*RCD
        - 4*RBC^2 - 8*RBC*RCD)/(8*(BCX^2 + BCY^2))

/-- `final_sol` entry `CDX` as a function of the stage-1 values; the notebook
prints the `CDY` closed form inlined where `CDYg` appears here. -/
def CDXg (BCX BCY PD PLD RBC RCD : ℝ) : ℝ :=
  (4*BCX^2 + 4*BCY^2 - 8*BCY*(CDYg BCX BCY PD PLD RBC RCD)
    + PD^2 - 4*PD*PLD - 4*PD*RCD + 4*PLD^2 + 8*PLD*RCD - 4*RBC^2 - 8*RBC*RCD)
    / (8*BCX)

/-- Pipeline value of `CDY` (forward substitution of the stage-1 values). -/
def CDY (p : Params) : ℝ := CDYg (BCX p) (BCY p) p.PD p.PLD p.RBC p.RCD

/-- Pipeline value of `CDX`. -/
def CDX (p : Params) : ℝ := CDXg (BCX p) (BCY p) p.PD p.PLD p.RBC p.RCD

/-- `final_sol` entries `CX`/`CY`: `CD - RCD/(RCD+RBC)*(CD - BC)`, one
coordinate at a time. -/
def Cg (BC CD RBC RCD : ℝ) : ℝ := CD - RCD/(RCD+RBC)*(CD - BC)

/-- Pipeline value of `CX`. -/
def CX (p : Params) : ℝ := Cg (BCX p) (CDX p) p.RBC p.RCD

/-- Pipeline value of `CY`. -/
def CY (p : Params) : ℝ := Cg (BCY p) (CDY p) p.RBC p.RCD

/-- `final_sol` entry `CDR = sqrt(CDX**2 + CDY**2)` (distance of `CD` from
the origin). -/
def CDR (p : Params) : ℝ := Real.sqrt ((CDX p)^2 + (CDY p)^2)

/-- `final_sol` entries `DX`/`DY`: `CD*(CDR + RCD)/CDR`, one coordinate at a
time. -/
def Dg (CD CDR RCD : ℝ) : ℝ := CD*(CDR + RCD)/CDR

/-- Pipeline value of `DX`. -/
def DX (p : Params) : ℝ := Dg (CDX p) (CDR p) p.RCD

/-- Pipeline value of `DY`. -/
def DY (p : Params) : ℝ := Dg (CDY p) (CDR p) p.RCD

/-- `final_sol` entry `TANG`, as appended in the notebook:
`(-asin(BX/sqrt(BX**2+BY**2)) + (asin(BX/sqrt(BX**2+BY**2)) - 2*P/PD))/2`
(the printed list shows its simplification `-P/PD`). -/
def TANG (p : Params) : ℝ :=
  (-Real.arcsin ((BX p)/Real.sqrt ((BX p)^2 + (BY p)^2))
    + (Real.arcsin ((BX p)/Real.sqrt ((BX p)^2 + (BY p)^2)) - 2*p.P/p.PD))/2

/-- The notebook's `reflect_point(x, y, theta)`: reflection across the ray at
angle `theta` from the y axis, in polar form. -/
def reflect_point (x y theta : ℝ) : ℝ × ℝ :=
  (-Real.sqrt (x^2 + y^2) * Real.sin (2*theta + Real.arcsin (x/Real.sqrt (x^2 + y^2))),
    Real.sqrt (x^2 + y^2) * Real.cos (2*theta + Real.arcsin (x/Real.sqrt (x^2 + y^2))))

/-- `final_sol` entry `EX` (`E = reflect_point(D, TANG)`). -/
def EX (p : Params) : ℝ := (reflect_point (DX p) (DY p) (TANG p)).1

/-- `final_sol` entry `EY`. -/
def EY (p : Params) : ℝ := (reflect_point (DX p) (DY p) (TANG p)).2

/-- `final_sol` entry `FX` (`F = reflect_point(C, TANG)`). -/
def FX (p : Params) : ℝ := (reflect_point (CX p) (CY p) (TANG p)).1

/-- `final_sol` entry `FY`. -/
def FY (p : Params) : ℝ := (reflect_point (CX p) (CY p) (TANG p)).2

/-- `final_sol` entry `EFX` (`EF = reflect_point(CD, TANG)`). -/
def EFX (p : Params) : ℝ := (reflect_point (CDX p) (CDY p) (TANG p)).1

/-- `final_sol` entry `EFY`. -/
def EFY (p : Params) : ℝ := (reflect_point (CDX p) (CDY p) (TANG p)).2

/-- `final_sol` entry `GX` (`G = reflect_point(B, TANG)`). -/
def GX (p : Params) : ℝ := (reflect_point (BX p) (BY p) (TANG p)).1

/-- `final_sol` entry `GY`. -/
def GY (p : Params) : ℝ := (reflect_point (BX p) (BY p) (TANG p)).2

/-- `final_sol` entry `FGX` (`FG = reflect_point(BC, TANG)`). -/
def FGX (p : Params) : ℝ := (reflect_point (BCX p) (BCY p) (TANG p)).1

/-- `final_sol` entry `FGY`. -/
def FGY (p : Params) : ℝ := (reflect_point (BCX p) (BCY p) (TANG p)).2

/-- The reference parameter values of the notebook
(`vals = [0.555, 1, 0.15, 0.4, 0.75, 0.254, 10, 6.36619772368, 2]`). -/
def pFix : Params :=
  ⟨0.555, 1, 0.15, 0.4, 0.75, 0.254, 10, 6.36619772368, 2⟩

/-- A degenerate but stage-1-valid parameter point with `b = 0`, used as a
concrete evaluation point (all stage-1 values are rational there). -/
def pZeroB : Params := ⟨1, 2, 1, 0, 0, 0, 1, 2, 1⟩

/-! ## Basic algebraic facts about the stage-1 closed forms -/

/-- The printed closed forms of `AY` and `BY` are literally identical. -/
lemma AY_eq_BY (p : Params) : AY p = BY p := rfl

/-- The printed closed form of `AX` is term-by-term the negation of `BX`. -/
lemma AX_eq_neg_BX (p : Params) : AX p = -BX p := by
  unfold AX BX; ring

/-- `ABY` coincides with the substitution constant `L`. -/
lemma ABY_eq_L (p : Params) : ABY p = L p := by
  unfold ABY L; ring

/-- `BCX` factors through the auxiliary radius `RBXY`. -/
lemma BCX_eq (p : Params) : BCX p = -(RBXY p * Real.sin (2*p.b/p.PD)) := by
  unfold BCX RBXY; ring

/-- `BCY` factors through the auxiliary radius `RBXY`. -/
lemma BCY_eq (p : Params) : BCY p = RBXY p * Real.cos (2*p.b/p.PD) := by
  unfold BCY RBXY; ring

/-- `BC` lies at distance `|RBXY|` from the origin. -/
lemma norm_BC_sq (p : Params) : (BCX p)^2 + (BCY p)^2 = (RBXY p)^2 := by
  rw [BCX_eq, BCY_eq]
  have h := Real.sin_sq_add_cos_sq (2*p.b/p.PD)
  linear_combination (RBXY p)^2 * h

lemma cos_pow_six (x : ℝ) : Real.cos x^6 = (1 - Real.sin x^2)^3 := by
  rw [show (6:ℕ) = 2*3 from rfl, pow_mul, Real.cos_sq']

lemma factor_ne_of_sq_sub_sq_ne {a c : ℝ} (hne : a^2 - c^2 ≠ 0) :
    a - c ≠ 0 ∧ a + c ≠ 0 := by
  constructor
  · intro hc; exact hne (by linear_combination (a + c) * hc)
  · intro hc; exact hne (by linear_combination (a - c) * hc)

/-- The degree-18 tail of the printed `BX` vanishes modulo `sin² + cos² = 1`,
leaving the compact form `-RAB·RBXY·sin(2b/PD)/(RAB - RBC)`. -/
lemma BX_simp (p : Params) (hne : p.RAB^2 - p.RBC^2 ≠ 0) :
    BX p = -(p.RAB * RBXY p * Real.sin (2*p.b/p.PD))/(p.RAB - p.RBC) := by
  obtain ⟨h1, h2⟩ := factor_ne_of_sq_sub_sq_ne hne
  unfold BX RBXY
  rw [cos_pow_six]
  field_simp
  ring

/-- The compact form of the printed `BY`:
`(RAB·BCY - RBC·ABY)/(RAB - RBC)`. -/
lemma BY_simp (p : Params) (hne : p.RAB^2 - p.RBC^2 ≠ 0) :
    BY p = (p.RAB * BCY p - p.RBC * ABY p)/(p.RAB - p.RBC) := by
  obtain ⟨h1, h2⟩ := factor_ne_of_sq_sub_sq_ne hne
  unfold BY BCY ABY
  rw [cos_pow_six]
  rw [show 2*p.b/p.PD = 2*(p.b/p.PD) from by ring, Real.cos_two_mul, Real.cos_sq']
  field_simp
  ring

/-- Tangency geometry of stage 1: the flank-arc center `BC` lies at distance
`|RAB - RBC|` from the addendum-arc center `AB = (0, ABY)`. -/
lemma dist_BC_AB_sq (p : Params) (hD : 0 ≤ Delta p) :
    (BCX p)^2 + (BCY p - ABY p)^2 = (p.RAB - p.RBC)^2 := by
  have harg : 2*p.b/p.PD = 2*(p.b/p.PD) := by ring
  have hcos : Real.cos (2*(p.b/p.PD)) = 1 - 2*Real.sin (p.b/p.PD)^2 := by
    rw [Real.cos_two_mul, Real.cos_sq']; ring
  have hpy := Real.sin_sq_add_cos_sq (2*(p.b/p.PD))
  rw [hcos] at hpy
  have hu : Real.sqrt (Delta p)^2 =
      p.RAB^2 - 2*p.RAB*p.RBC + p.RBC^2
        + 4*(p.PD/2 - p.PLD + p.RAB - p.h)^2*Real.sin (p.b/p.PD)^4
        - 4*(p.PD/2 - p.PLD + p.RAB - p.h)^2*Real.sin (p.b/p.PD)^2 := by
    rw [Real.sq_sqrt hD]; rfl
  unfold BCX BCY ABY
  rw [harg, hcos]
  linear_combination
    ((p.PD/2 - p.PLD + p.RAB - p.h)
      - 2*(p.PD/2 - p.PLD + p.RAB - p.h)*Real.sin (p.b/p.PD)^2
      + Real.sqrt (Delta p))^2 * hpy + hu

/-- Tangency of stage 1: `B` lies at distance `RAB` from `AB` (squared form). -/
lemma dist_B_AB_sq (p : Params) (hD : 0 ≤ Delta p)
    (hne : p.RAB^2 - p.RBC^2 ≠ 0) :
    (BX p - ABX p)^2 + (BY p - ABY p)^2 = p.RAB^2 := by
  obtain ⟨h1, h2⟩ := factor_ne_of_sq_sub_sq_ne hne
  have hBX : BX p - ABX p = p.RAB*(BCX p - ABX p)/(p.RAB - p.RBC) := by
    rw [BX_simp p hne, BCX_eq]; unfold ABX; ring
  have hBY : BY p - ABY p = p.RAB*(BCY p - ABY p)/(p.RAB - p.RBC) := by
    rw [BY_simp p hne]; field_simp; ring
  have h11 := dist_BC_AB_sq p hD
  rw [hBX, hBY]
  unfold ABX
  field_simp
  linear_combination p.RAB^2 * h11

/-- Tangency of stage 1: `B` lies at distance `RBC` from `BC` (squared form). -/
lemma dist_B_BC_sq (p : Params) (hD : 0 ≤ Delta p)
    (hne : p.RAB^2 - p.RBC^2 ≠ 0) :
    (BX p - BCX p)^2 + (BY p - BCY p)^2 = p.RBC^2 := by
  obtain ⟨h1, h2⟩ := factor_ne_of_sq_sub_sq_ne hne
  have hBX : BX p - BCX p = p.RBC*(BCX p - ABX p)/(p.RAB - p.RBC) := by
    rw [BX_simp p hne, BCX_eq]; unfold ABX; field_simp; ring
  have hBY : BY p - BCY p = p.RBC*(BCY p - ABY p)/(p.RAB - p.RBC) := by
    rw [BY_simp p hne]; field_simp; ring
  have h11 := dist_BC_AB_sq p hD
  rw [hBX, hBY]
  unfold ABX
  field_simp
  linear_combination p.RBC^2 * h11

/-! ## Stage 2: the fillet-arc center satisfies both circle equations -/

/-- The stage-2 square-root argument rewrites as the circle-intersection
discriminant `64·N·R₂² - K²`. -/
lemma Qarg_eq (X Y PD PLD RBC RCD : ℝ) :
    Qarg X Y PD PLD RBC RCD =
      64*(X^2 + Y^2)*(PD/2 - PLD - RCD)^2
        - (4*(X^2 + Y^2) + PD^2 - 4*PD*PLD - 4*PD*RCD + 4*PLD^2 + 8*PLD*RCD
            - 4*RBC^2 - 8*RBC*RCD)^2 := by
  unfold Qarg; ring

/-- The linear relation extracted from the printed `CDX` formula. -/
lemma CDXg_lin (X Y PD PLD RBC RCD : ℝ) (hX : X ≠ 0) :
    8*X*(CDXg X Y PD PLD RBC RCD) =
      4*X^2 + 4*Y^2 - 8*Y*(CDYg X Y PD PLD RBC RCD)
        + PD^2 - 4*PD*PLD - 4*PD*RCD + 4*PLD^2 + 8*PLD*RCD - 4*RBC^2 - 8*RBC*RCD := by
  unfold CDXg; field_simp

/-- The linear-in-`√Q` form of the printed `CDY` formula. -/
lemma CDYg_lin (X Y PD PLD RBC RCD : ℝ) (hX : X ≠ 0) :
    8*(X^2 + Y^2)*(CDYg X Y PD PLD RBC RCD) =
      Y*(4*(X^2 + Y^2) + PD^2 - 4*PD*PLD - 4*PD*RCD + 4*PLD^2 + 8*PLD*RCD
          - 4*RBC^2 - 8*RBC*RCD)
        - X*Real.sqrt (Qarg X Y PD PLD RBC RCD) := by
  have hN : (0:ℝ) < X^2 + Y^2 := by positivity
  unfold CDYg
  field_simp
  ring

/-- The stage-2 closed form satisfies both circle equations: `CD` lies at
distance `PD/2 - PLD - RCD` from the origin and at distance `RBC + RCD`
from `BC`. -/
lemma stage2_circles (X Y PD PLD RBC RCD : ℝ) (hX : X ≠ 0)
    (hQ : 0 ≤ Qarg X Y PD PLD RBC RCD) :
    (CDXg X Y PD PLD RBC RCD)^2 + (CDYg X Y PD PLD RBC RCD)^2
        = (PD/2 - PLD - RCD)^2 ∧
      (CDXg X Y PD PLD RBC RCD - X)^2 + (CDYg X Y PD PLD RBC RCD - Y)^2
        = (RBC + RCD)^2 := by
  have hN : (0:ℝ) < X^2 + Y^2 := by positivity
  have hXv := CDXg_lin X Y PD PLD RBC RCD hX
  have hYv := CDYg_lin X Y PD PLD RBC RCD hX
  have hw2 : Real.sqrt (Qarg X Y PD PLD RBC RCD)^2
      = 64*(X^2 + Y^2)*(PD/2 - PLD - RCD)^2
      - (4*(X^2 + Y^2) + PD^2 - 4*PD*PLD - 4*PD*RCD + 4*PLD^2 + 8*PLD*RCD
          - 4*RBC^2 - 8*RBC*RCD)^2 := by
    rw [Real.sq_sqrt hQ, Qarg_eq]
  set Xv := CDXg X Y PD PLD RBC RCD with hXvdef
  set Yv := CDYg X Y PD PLD RBC RCD with hYvdef
  set w := Real.sqrt (Qarg X Y PD PLD RBC RCD) with hwdef
  have hK : 4*(X^2 + Y^2) + PD^2 - 4*PD*PLD - 4*PD*RCD + 4*PLD^2 + 8*PLD*RCD
      - 4*RBC^2 - 8*RBC*RCD
      = 4*(X^2 + Y^2) + 4*(PD/2 - PLD - RCD)^2 - 4*(RBC + RCD)^2 := by ring
  have hc2 : Xv^2 + Yv^2 = (PD/2 - PLD - RCD)^2 := by
    have haux : (4096*X^2*(X^2 + Y^2)^2) * (Xv^2 + Yv^2)
        = (4096*X^2*(X^2 + Y^2)^2) * (PD/2 - PLD - RCD)^2 := by
      linear_combination
        (64*(X^2 + Y^2)^2*(8*X*Xv + 4*X^2 + 4*Y^2 - 8*Y*Yv
            + PD^2 - 4*PD*PLD - 4*PD*RCD + 4*PLD^2 + 8*PLD*RCD
            - 4*RBC^2 - 8*RBC*RCD)) * hXv
        + (-128*X*Y*((4*(X^2 + Y^2) + PD^2 - 4*PD*PLD - 4*PD*RCD + 4*PLD^2
              + 8*PLD*RCD - 4*RBC^2 - 8*RBC*RCD)*X + Y*w)
            + 128*X^2*(Y*(4*(X^2 + Y^2) + PD^2 - 4*PD*PLD - 4*PD*RCD + 4*PLD^2
              + 8*PLD*RCD - 4*RBC^2 - 8*RBC*RCD) - X*w)
            + 64*(X^2 + Y^2)*(8*(X^2 + Y^2)*Yv
              - Y*(4*(X^2 + Y^2) + PD^2 - 4*PD*PLD - 4*PD*RCD + 4*PLD^2
                + 8*PLD*RCD - 4*RBC^2 - 8*RBC*RCD) + X*w)) * hYv
        + (64*X^2*(X^2 + Y^2)) * hw2
    have hnz : (4096*X^2*(X^2 + Y^2)^2) ≠ 0 := by positivity
    exact mul_left_cancel₀ hnz haux
  refine ⟨hc2, ?_⟩
  linear_combination hc2 - (1/4) * hXv

/-! ## The reflection transform -/

/-- `reflect_point` preserves the squared distance from the origin. -/
lemma reflect_point_norm (x y theta : ℝ) :
    (reflect_point x y theta).1^2 + (reflect_point x y theta).2^2 = x^2 + y^2 := by
  unfold reflect_point
  have h := Real.sin_sq_add_cos_sq
    (2*theta + Real.arcsin (x/Real.sqrt (x^2 + y^2)))
  have hs : Real.sqrt (x^2 + y^2)^2 = x^2 + y^2 := Real.sq_sqrt (by positivity)
  linear_combination (Real.sqrt (x^2 + y^2))^2 * h + hs

/-- For a source point in the closed upper half plane, `reflect_point` is the
linear reflection about the ray at angle `theta` from the y axis. -/
lemma reflect_point_eq (x y theta : ℝ) (hy : 0 ≤ y) :
    reflect_point x y theta =
      (-(x*Real.cos (2*theta) + y*Real.sin (2*theta)),
        y*Real.cos (2*theta) - x*Real.sin (2*theta)) := by
  rcases eq_or_lt_of_le (show (0:ℝ) ≤ x^2 + y^2 by positivity) with h0 | hpos
  · have hx0 : x = 0 := by nlinarith [sq_nonneg x, sq_nonneg y]
    have hy0 : y = 0 := by nlinarith [sq_nonneg x, sq_nonneg y]
    subst hx0; subst hy0
    simp [reflect_point]
  · have hr : 0 < Real.sqrt (x^2 + y^2) := Real.sqrt_pos.2 hpos
    have hrsq : Real.sqrt (x^2 + y^2)^2 = x^2 + y^2 := Real.sq_sqrt hpos.le
    have hxle : |x| ≤ Real.sqrt (x^2 + y^2) := by
      rw [← Real.sqrt_sq_eq_abs]
      exact Real.sqrt_le_sqrt (by nlinarith [sq_nonneg y])
    have h1 : -1 ≤ x/Real.sqrt (x^2 + y^2) := by
      rw [le_div_iff₀ hr]
      have := (abs_le.1 hxle).1
      linarith
    have h2 : x/Real.sqrt (x^2 + y^2) ≤ 1 := by
      rw [div_le_iff₀ hr]
      have := (abs_le.1 hxle).2
      linarith
    have hcosarc : Real.cos (Real.arcsin (x/Real.sqrt (x^2 + y^2)))
        = y/Real.sqrt (x^2 + y^2) := by
      rw [Real.cos_arcsin]
      have he : 1 - (x/Real.sqrt (x^2 + y^2))^2 = (y/Real.sqrt (x^2 + y^2))^2 := by
        field_simp
      rw [he, Real.sqrt_sq (div_nonneg hy hr.le)]
    have hsinarc : Real.sin (Real.arcsin (x/Real.sqrt (x^2 + y^2)))
        = x/Real.sqrt (x^2 + y^2) := Real.sin_arcsin h1 h2
    unfold reflect_point
    rw [Real.sin_add, Real.cos_add, hsinarc, hcosarc, Prod.mk.injEq]
    constructor
    · field_simp; ring
    · field_simp; ring

/-! ## The bisector angle -/

/-- The `arcsin` terms of the appended `TANG` expression cancel, leaving
`-P/PD` (the simplified form printed in `final_sol`). -/
lemma TANG_eq (p : Params) : TANG p = -p.P/p.PD := by
  unfold TANG; ring

/-! ## Error model of the ported stage 1 -/

/-- Modelled from the spec: the error kinds of §7.  The notebook itself
contains no error handling (it is a symbolic derivation); the spec's §4.2/§7
prescribe these error cases for a port. -/
inductive PulleyError where
  | InvalidParameter : PulleyError
  | NoValidGeometry : PulleyError
  | DegenerateReflection : PulleyError
deriving DecidableEq

/-- The stage-1 output record: the two tangency points, the two arc centers
and the shared flank radius. -/
structure Stage1Result where
  A : ℝ × ℝ
  B : ℝ × ℝ
  AB : ℝ × ℝ
  BC : ℝ × ℝ
  RBXY : ℝ

open Classical in
/-- Modelled from the spec: stage 1 of a port guards `RAB = RBC` with
`InvalidParameter` and a negative discriminant with `NoValidGeometry`
(§4.2/§7); in the success case it returns the notebook's closed forms. -/
def stage1 (p : Params) : Except PulleyError Stage1Result :=
  if p.RAB = p.RBC then .error .InvalidParameter
  else if Delta p < 0 then .error .NoValidGeometry
  else .ok ⟨(AX p, AY p), (BX p, BY p), (ABX p, ABY p), (BCX p, BCY p), RBXY p⟩

/-! ## Evaluation at the degenerate point `pZeroB` (`b = 0`) -/

lemma pZeroB_sin : Real.sin (pZeroB.b/pZeroB.PD) = 0 := by
  show Real.sin (0/2) = 0
  rw [show (0:ℝ)/2 = 0 by norm_num, Real.sin_zero]

lemma pZeroB_sin2 : Real.sin (2*pZeroB.b/pZeroB.PD) = 0 := by
  show Real.sin (2*0/2) = 0
  rw [show (2:ℝ)*0/2 = 0 by norm_num, Real.sin_zero]

lemma pZeroB_cos2 : Real.cos (2*pZeroB.b/pZeroB.PD) = 1 := by
  show Real.cos (2*0/2) = 1
  rw [show (2:ℝ)*0/2 = 0 by norm_num, Real.cos_zero]

lemma Delta_pZeroB : Delta pZeroB = 1 := by
  unfold Delta
  rw [pZeroB_sin]
  show (1:ℝ)^2 - 2*1*2 + 2^2 + 4*(2/2 - 0 + 1 - 0)^2*0^4 - 4*(2/2 - 0 + 1 - 0)^2*0^2 = 1
  norm_num

lemma RBXY_pZeroB : RBXY pZeroB = 3 := by
  unfold RBXY
  rw [pZeroB_sin, Delta_pZeroB, Real.sqrt_one]
  show (2:ℝ)/2 - 0 + 1 - 0 - 2*(2/2 - 0 + 1 - 0)*0^2 + 1 = 3
  norm_num

lemma BCX_pZeroB : BCX pZeroB = 0 := by
  rw [BCX_eq, pZeroB_sin2, mul_zero, neg_zero]

lemma BCY_pZeroB : BCY pZeroB = 3 := by
  rw [BCY_eq, pZeroB_cos2, RBXY_pZeroB, mul_one]

lemma ABY_pZeroB : ABY pZeroB = 2 := by
  show (2:ℝ)/2 - 0 + 1 - 0 = 2
  norm_num

lemma pZeroB_hne : pZeroB.RAB^2 - pZeroB.RBC^2 ≠ 0 := by
  show (1:ℝ)^2 - 2^2 ≠ 0
  norm_num

lemma BX_pZeroB : BX pZeroB = 0 := by
  rw [BX_simp pZeroB pZeroB_hne, pZeroB_sin2, mul_zero, neg_zero, zero_div]

lemma BY_pZeroB : BY pZeroB = 1 := by
  rw [BY_simp pZeroB pZeroB_hne, BCY_pZeroB, ABY_pZeroB]
  show (pZeroB.RAB*3 - pZeroB.RBC*2)/(pZeroB.RAB - pZeroB.RBC) = 1
  show ((1:ℝ)*3 - 2*2)/(1 - 2) = 1
  norm_num

/-! ## The spec's stage-1 formulas (for the refinement claim C1) -/

/-- The spec's abbreviation `S = sin(b/PD)²`. -/
def Sspec (p : Params) : ℝ := Real.sin (p.b/p.PD)^2

/-- The spec's stage-1 discriminant
`Δ = RAB² - 2·RAB·RBC + RBC² + 4L²S² - 4L²S`. -/
def DeltaSpec (p : Params) : ℝ :=
  p.RAB^2 - 2*p.RAB*p.RBC + p.RBC^2 + 4*(L p)^2*(Sspec p)^2 - 4*(L p)^2*(Sspec p)

/-- The spec's formula `RBXY = L - 2LS + √Δ`. -/
def RBXYspec (p : Params) : ℝ :=
  L p - 2*(L p)*(Sspec p) + Real.sqrt (DeltaSpec p)

/-- The spec's formula `BCX = (-L + 2LS - √Δ)·sin(2b/PD)`. -/
def BCXspec (p : Params) : ℝ :=
  (-(L p) + 2*(L p)*(Sspec p) - Real.sqrt (DeltaSpec p))*Real.sin (2*p.b/p.PD)

/-- The spec's formula `BCY = (L - 2LS + √Δ)·cos(2b/PD)`. -/
def BCYspec (p : Params) : ℝ :=
  (L p - 2*(L p)*(Sspec p) + Real.sqrt (DeltaSpec p))*Real.cos (2*p.b/p.PD)

lemma DeltaSpec_eq (p : Params) : DeltaSpec p = Delta p := by
  unfold DeltaSpec Delta Sspec L; ring

/-! ## Claims -/

/-- Claim C1: for every ParameterSet with `RAB ≠ RBC` and non-negative
stage-1 discriminant `Δ`, stage 1 returns exactly `RBXY = L - 2LS + √Δ`,
`ABX = 0`, `ABY = L`, `BCX = (-L + 2LS - √Δ)·sin(2b/PD)` and
`BCY = (L - 2LS + √Δ)·cos(2b/PD)`, with `√Δ` the non-negative root. -/
theorem claim_C1 (p : Params) (hne : p.RAB ≠ p.RBC) (hD : 0 ≤ DeltaSpec p) :
    RBXY p = RBXYspec p ∧ ABX p = 0 ∧ ABY p = L p
      ∧ BCX p = BCXspec p ∧ BCY p = BCYspec p := by
  refine ⟨?_, rfl, ABY_eq_L p, ?_, ?_⟩
  · unfold RBXY RBXYspec
    rw [DeltaSpec_eq]
    unfold Sspec L
    ring
  · unfold BCX BCXspec
    rw [DeltaSpec_eq]
    unfold Sspec L
    ring
  · unfold BCY BCYspec
    rw [DeltaSpec_eq]
    unfold Sspec L
    ring

/-- Witness for C1 at the concrete point `pZeroB`. -/
theorem claim_C1_witness :
    pZeroB.RAB ≠ pZeroB.RBC ∧ 0 ≤ DeltaSpec pZeroB ∧
      (RBXY pZeroB = RBXYspec pZeroB ∧ ABX pZeroB = 0 ∧ ABY pZeroB = L pZeroB
        ∧ BCX pZeroB = BCXspec pZeroB ∧ BCY pZeroB = BCYspec pZeroB) := by
  have h1 : pZeroB.RAB ≠ pZeroB.RBC := by
    show (1:ℝ) ≠ 2; norm_num
  have h2 : 0 ≤ DeltaSpec pZeroB := by
    rw [DeltaSpec_eq, Delta_pZeroB]; norm_num
  exact ⟨h1, h2, claim_C1 pZeroB h1 h2⟩

/-- Claim C4: for every valid ParameterSet (`RAB ≠ RBC`, `Δ ≥ 0`), stage 1's
outputs satisfy `AX = -BX` and `AY = BY` exactly: `A` and `B` are mirror
images across the y axis (exact equality implies the 1e-9 tolerance). -/
theorem claim_C4 (p : Params) (hne : p.RAB ≠ p.RBC) (hD : 0 ≤ Delta p) :
    AX p = -BX p ∧ AY p = BY p :=
  ⟨AX_eq_neg_BX p, AY_eq_BY p⟩

/-- Witness for C4 at the concrete point `pZeroB`. -/
theorem claim_C4_witness :
    pZeroB.RAB ≠ pZeroB.RBC ∧ 0 ≤ Delta pZeroB ∧
      (AX pZeroB = -BX pZeroB ∧ AY pZeroB = BY pZeroB) := by
  have h1 : pZeroB.RAB ≠ pZeroB.RBC := by
    show (1:ℝ) ≠ 2; norm_num
  have h2 : 0 ≤ Delta pZeroB := by rw [Delta_pZeroB]; norm_num
  exact ⟨h1, h2, claim_C4 pZeroB h1 h2⟩

/-- Claim C5: the bisector angle computed by stage 3 equals `-P/PD`: the
two `arcsin` terms of the notebook's `TANG` expression cancel, so the
appended definition and the printed simplification agree, independent of
`B`. -/
theorem claim_C5 (p : Params) (hpos : (BX p)^2 + (BY p)^2 > 0)
    (hratio : |BX p|/Real.sqrt ((BX p)^2 + (BY p)^2) ≤ 1) :
    TANG p = -p.P/p.PD :=
  TANG_eq p

/-- Witness for C5 at the concrete point `pZeroB`. -/
theorem claim_C5_witness :
    (BX pZeroB)^2 + (BY pZeroB)^2 > 0 ∧
      |BX pZeroB|/Real.sqrt ((BX pZeroB)^2 + (BY pZeroB)^2) ≤ 1 ∧
      TANG pZeroB = -pZeroB.P/pZeroB.PD := by
  have h1 : (BX pZeroB)^2 + (BY pZeroB)^2 > 0 := by
    rw [BX_pZeroB, BY_pZeroB]; norm_num
  have h2 : |BX pZeroB|/Real.sqrt ((BX pZeroB)^2 + (BY pZeroB)^2) ≤ 1 := by
    rw [BX_pZeroB, BY_pZeroB]
    rw [show (0:ℝ)^2 + 1^2 = 1 by norm_num, Real.sqrt_one]
    norm_num
  exact ⟨h1, h2, claim_C5 pZeroB h1 h2⟩

/-- Counterexample to C6 as stated: the point `(0, -1)` with `θ = 0` has
positive squared norm, yet reflecting it twice yields `(0, 1)`, off by `2`
in the y coordinate (far beyond any floating-point tolerance). -/
theorem claim_C6_counterexample :
    ((0:ℝ)^2 + (-1:ℝ)^2 > 0) ∧
      |(reflect_point (reflect_point 0 (-1) 0).1 (reflect_point 0 (-1) 0).2 0).2
        - (-1)| > 1e-9 := by
  have h1 : reflect_point (0:ℝ) (-1) 0 = (0, 1) := by
    unfold reflect_point
    rw [show (0:ℝ)^2 + (-1:ℝ)^2 = 1 by norm_num, Real.sqrt_one]
    norm_num [Real.arcsin_zero]
  rw [h1]
  have h2 : reflect_point (0:ℝ) 1 0 = (0, 1) := by
    unfold reflect_point
    rw [show (0:ℝ)^2 + (1:ℝ)^2 = 1 by norm_num, Real.sqrt_one]
    norm_num [Real.arcsin_zero]
  rw [h2]
  norm_num

/-- Claim C6, amended: the double reflection returns the original point
provided the source point and its reflection both lie in the open upper
half plane (`y > 0` and `y·cos 2θ - x·sin 2θ > 0`); the counterexample
shows the lower half plane must be excluded because `asin(x/r)` only
recovers the angular position of upper-half-plane points. -/
theorem claim_C6 (x y theta : ℝ) (hy : 0 < y)
    (hy2 : 0 < y*Real.cos (2*theta) - x*Real.sin (2*theta)) :
    reflect_point (reflect_point x y theta).1 (reflect_point x y theta).2 theta
      = (x, y) := by
  rw [reflect_point_eq x y theta hy.le]
  rw [reflect_point_eq _ _ theta hy2.le]
  have h := Real.sin_sq_add_cos_sq (2*theta)
  rw [Prod.mk.injEq]
  constructor
  · linear_combination x * h
  · linear_combination y * h

/-- Witness for the amended C6 at `(0, 1)`, `θ = 0`. -/
theorem claim_C6_witness :
    (0:ℝ) < 1 ∧ (0:ℝ) < 1*Real.cos (2*0) - 0*Real.sin (2*0) ∧
      reflect_point (reflect_point 0 1 0).1 (reflect_point 0 1 0).2 0 = (0, 1) := by
  have h1 : (0:ℝ) < 1 := by norm_num
  have h2 : (0:ℝ) < 1*Real.cos (2*0) - 0*Real.sin (2*0) := by
    rw [show (2:ℝ)*0 = 0 by norm_num, Real.cos_zero, Real.sin_zero]
    norm_num
  exact ⟨h1, h2, claim_C6 0 1 0 h1 h2⟩

/-- Claim C7: the modelled stage 1 fails with `InvalidParameter` exactly
when `RAB = RBC`, with `NoValidGeometry` exactly when (`RAB ≠ RBC` and)
`Δ < 0`, and succeeds otherwise, returning the closed forms (in the exact
real semantics no NaN or infinity exists; the guards fire before any
evaluation). -/
theorem claim_C7 (p : Params) :
    (stage1 p = .error .InvalidParameter ↔ p.RAB = p.RBC) ∧
      (stage1 p = .error .NoValidGeometry ↔ p.RAB ≠ p.RBC ∧ Delta p < 0) ∧
      (p.RAB ≠ p.RBC → 0 ≤ Delta p →
        stage1 p = .ok ⟨(AX p, AY p), (BX p, BY p), (ABX p, ABY p),
          (BCX p, BCY p), RBXY p⟩) := by
  unfold stage1
  by_cases h1 : p.RAB = p.RBC
  · simp [h1]
  · by_cases h2 : Delta p < 0
    · simp [h1, h2]
    · simp [h1, h2]

/-- Witness for C7's success case at the concrete point `pZeroB`. -/
theorem claim_C7_witness :
    pZeroB.RAB ≠ pZeroB.RBC ∧ 0 ≤ Delta pZeroB ∧
      stage1 pZeroB = .ok ⟨(AX pZeroB, AY pZeroB), (BX pZeroB, BY pZeroB),
        (ABX pZeroB, ABY pZeroB), (BCX pZeroB, BCY pZeroB), RBXY pZeroB⟩ := by
  have h1 : pZeroB.RAB ≠ pZeroB.RBC := by
    show (1:ℝ) ≠ 2; norm_num
  have h2 : 0 ≤ Delta pZeroB := by rw [Delta_pZeroB]; norm_num
  exact ⟨h1, h2, (claim_C7 pZeroB).2.2 h1 h2⟩

/-- Claim C8: given a stage-2 result with `|CD - BC| = RBC + RCD` and
`CDR = |CD| > 0` (and positive radii), the derived point
`C = CD - (RCD/(RBC+RCD))·(CD - BC)` lies on the segment from `BC` to `CD`
with `|C - BC| = RBC` and `|C - CD| = RCD`, and the derived point
`D = CD·(CDR + RCD)/CDR` lies on the ray from the origin through `CD`
beyond `CD`, with `|D| = CDR + RCD`. -/
theorem claim_C8 (BCX BCY CDX CDY RBC RCD : ℝ) (hRBC : 0 < RBC)
    (hRCD : 0 < RCD)
    (htang : Real.sqrt ((CDX - BCX)^2 + (CDY - BCY)^2) = RBC + RCD)
    (hCDR : 0 < Real.sqrt (CDX^2 + CDY^2)) :
    (∃ s, 0 ≤ s ∧ s ≤ 1 ∧ Cg BCX CDX RBC RCD = BCX + s*(CDX - BCX)
        ∧ Cg BCY CDY RBC RCD = BCY + s*(CDY - BCY)) ∧
      Real.sqrt ((Cg BCX CDX RBC RCD - BCX)^2 + (Cg BCY CDY RBC RCD - BCY)^2)
        = RBC ∧
      Real.sqrt ((Cg BCX CDX RBC RCD - CDX)^2 + (Cg BCY CDY RBC RCD - CDY)^2)
        = RCD ∧
      (∃ m, 1 ≤ m
        ∧ Dg CDX (Real.sqrt (CDX^2 + CDY^2)) RCD = m*CDX
        ∧ Dg CDY (Real.sqrt (CDX^2 + CDY^2)) RCD = m*CDY) ∧
      Real.sqrt ((Dg CDX (Real.sqrt (CDX^2 + CDY^2)) RCD)^2
          + (Dg CDY (Real.sqrt (CDX^2 + CDY^2)) RCD)^2)
        = Real.sqrt (CDX^2 + CDY^2) + RCD := by
  have hsum : (0:ℝ) < RCD + RBC := by linarith
  refine ⟨⟨RBC/(RCD + RBC), div_nonneg hRBC.le hsum.le, ?_, ?_, ?_⟩,
    ?_, ?_, ?_, ?_⟩
  · rw [div_le_one hsum]; linarith
  · unfold Cg; field_simp; ring
  · unfold Cg; field_simp; ring
  · have e1 : (Cg BCX CDX RBC RCD - BCX)^2 + (Cg BCY CDY RBC RCD - BCY)^2
        = (RBC/(RCD + RBC))^2 * ((CDX - BCX)^2 + (CDY - BCY)^2) := by
      unfold Cg; field_simp; ring
    rw [e1, Real.sqrt_mul (sq_nonneg _),
      Real.sqrt_sq (div_nonneg hRBC.le hsum.le), htang,
      show RBC + RCD = RCD + RBC from by ring,
      div_mul_cancel₀ _ (ne_of_gt hsum)]
  · have e2 : (Cg BCX CDX RBC RCD - CDX)^2 + (Cg BCY CDY RBC RCD - CDY)^2
        = (RCD/(RCD + RBC))^2 * ((CDX - BCX)^2 + (CDY - BCY)^2) := by
      unfold Cg; field_simp; ring
    rw [e2, Real.sqrt_mul (sq_nonneg _),
      Real.sqrt_sq (div_nonneg hRCD.le hsum.le), htang,
      show RBC + RCD = RCD + RBC from by ring,
      div_mul_cancel₀ _ (ne_of_gt hsum)]
  · refine ⟨(Real.sqrt (CDX^2 + CDY^2) + RCD)/Real.sqrt (CDX^2 + CDY^2),
      ?_, ?_, ?_⟩
    · rw [le_div_iff₀ hCDR]; linarith
    · unfold Dg; ring
    · unfold Dg; ring
  · have e3 : (Dg CDX (Real.sqrt (CDX^2 + CDY^2)) RCD)^2
        + (Dg CDY (Real.sqrt (CDX^2 + CDY^2)) RCD)^2
        = ((Real.sqrt (CDX^2 + CDY^2) + RCD)/Real.sqrt (CDX^2 + CDY^2))^2
          * (CDX^2 + CDY^2) := by
      unfold Dg; ring
    have h4 : (0:ℝ) ≤ (Real.sqrt (CDX^2 + CDY^2) + RCD)/Real.sqrt (CDX^2 + CDY^2) :=
      div_nonneg (by linarith) hCDR.le
    rw [e3, Real.sqrt_mul (sq_nonneg _), Real.sqrt_sq h4,
      div_mul_cancel₀ _ (ne_of_gt hCDR)]

/-- Witness for C8 at `BC = (0, 1)`, `CD = (0, 3)`, `RBC = 1.5`,
`RCD = 0.5`. -/
theorem claim_C8_witness :
    ((0:ℝ) < 1.5 ∧ (0:ℝ) < 0.5 ∧
      Real.sqrt (((0:ℝ) - 0)^2 + ((3:ℝ) - 1)^2) = 1.5 + 0.5 ∧
      0 < Real.sqrt ((0:ℝ)^2 + (3:ℝ)^2)) ∧
      Real.sqrt ((Cg 0 0 1.5 0.5 - 0)^2 + (Cg 1 3 1.5 0.5 - 1)^2) = 1.5 := by
  have h1 : (0:ℝ) < 1.5 := by norm_num
  have h2 : (0:ℝ) < 0.5 := by norm_num
  have h3 : Real.sqrt (((0:ℝ) - 0)^2 + ((3:ℝ) - 1)^2) = 1.5 + 0.5 := by
    rw [show ((0:ℝ) - 0)^2 + ((3:ℝ) - 1)^2 = 2^2 by norm_num,
      Real.sqrt_sq (by norm_num : (0:ℝ) ≤ 2)]
    norm_num
  have h4 : (0:ℝ) < Real.sqrt ((0:ℝ)^2 + (3:ℝ)^2) := by
    rw [show (0:ℝ)^2 + (3:ℝ)^2 = 3^2 by norm_num,
      Real.sqrt_sq (by norm_num : (0:ℝ) ≤ 3)]
    norm_num
  exact ⟨⟨h1, h2, h3, h4⟩, (claim_C8 0 1 0 3 1.5 0.5 h1 h2 h3 h4).2.1⟩

/-- Claim C9 (implicit): any parameter point with `b = 0` is permitted by the
stage-1 guards, yet makes `BCX = 0`, so the stage-2 closed form for `CDX`
divides by `8·BCX = 0` (in the real embedding the total division returns the
junk value `0`) — an edge case not covered by the documented guards. -/
theorem claim_C9 (p : Params) (hb : p.b = 0) :
    BCX p = 0 ∧ CDX p = 0 := by
  have hsin2 : Real.sin (2*p.b/p.PD) = 0 := by
    rw [hb, show (2:ℝ)*0/p.PD = 0 by ring, Real.sin_zero]
  have h1 : BCX p = 0 := by rw [BCX_eq, hsin2, mul_zero, neg_zero]
  refine ⟨h1, ?_⟩
  unfold CDX CDXg
  rw [h1]
  norm_num

/-- Witness for C9 at the concrete point `pZeroB`. -/
theorem claim_C9_witness :
    pZeroB.b = 0 ∧ BCX pZeroB = 0 ∧ CDX pZeroB = 0 := by
  have hb : pZeroB.b = 0 := rfl
  exact ⟨hb, claim_C9 pZeroB hb⟩

/-- Claim C10 (implicit): the reflection transform preserves the distance
from the origin, so each reflected point `E, F, EF, G, FG` has the same
norm as its source `D, C, CD, B, BC`; in particular `|EF| = CDR`, and
`|FG| = RBXY` whenever `RBXY ≥ 0`. -/
theorem claim_C10 :
    (∀ x y theta : ℝ, x^2 + y^2 > 0 →
      (reflect_point x y theta).1^2 + (reflect_point x y theta).2^2 = x^2 + y^2) ∧
    ∀ p : Params,
      (EX p)^2 + (EY p)^2 = (DX p)^2 + (DY p)^2 ∧
      (FX p)^2 + (FY p)^2 = (CX p)^2 + (CY p)^2 ∧
      (EFX p)^2 + (EFY p)^2 = (CDX p)^2 + (CDY p)^2 ∧
      (GX p)^2 + (GY p)^2 = (BX p)^2 + (BY p)^2 ∧
      (FGX p)^2 + (FGY p)^2 = (BCX p)^2 + (BCY p)^2 ∧
      Real.sqrt ((EFX p)^2 + (EFY p)^2) = CDR p ∧
      (0 ≤ RBXY p → Real.sqrt ((FGX p)^2 + (FGY p)^2) = RBXY p) := by
  constructor
  · exact fun x y theta _ => reflect_point_norm x y theta
  · intro p
    have hE : (EX p)^2 + (EY p)^2 = (DX p)^2 + (DY p)^2 :=
      reflect_point_norm (DX p) (DY p) (TANG p)
    have hF : (FX p)^2 + (FY p)^2 = (CX p)^2 + (CY p)^2 :=
      reflect_point_norm (CX p) (CY p) (TANG p)
    have hEF : (EFX p)^2 + (EFY p)^2 = (CDX p)^2 + (CDY p)^2 :=
      reflect_point_norm (CDX p) (CDY p) (TANG p)
    have hG : (GX p)^2 + (GY p)^2 = (BX p)^2 + (BY p)^2 :=
      reflect_point_norm (BX p) (BY p) (TANG p)
    have hFG : (FGX p)^2 + (FGY p)^2 = (BCX p)^2 + (BCY p)^2 :=
      reflect_point_norm (BCX p) (BCY p) (TANG p)
    refine ⟨hE, hF, hEF, hG, hFG, ?_, ?_⟩
    · rw [hEF]; rfl
    · intro hR
      rw [hFG, norm_BC_sq, Real.sqrt_sq hR]

/-- Claim C3: for every valid ParameterSet (positive radii, `RAB ≠ RBC`,
`Δ ≥ 0`, successful stage 2, i.e. nonnegative stage-2 discriminant,
`BCX ≠ 0` and nonnegative target radius), the computed points satisfy the
tangency distance equations `|B - AB| = RAB`, `|B - BC| = RBC`,
`|CD - BC| = RBC + RCD` and `|CD| = PD/2 - PLD - RCD` — here proved
exactly, which implies the spec's 1e-9 tolerance. -/
theorem claim_C3 (p : Params) (hRAB : 0 < p.RAB) (hRBC : 0 < p.RBC)
    (hRCD : 0 < p.RCD) (hne : p.RAB ≠ p.RBC) (hD : 0 ≤ Delta p)
    (hQ : 0 ≤ Qarg (BCX p) (BCY p) p.PD p.PLD p.RBC p.RCD)
    (hBCXne : BCX p ≠ 0) (hR2 : 0 ≤ p.PD/2 - p.PLD - p.RCD) :
    Real.sqrt ((BX p - ABX p)^2 + (BY p - ABY p)^2) = p.RAB ∧
      Real.sqrt ((BX p - BCX p)^2 + (BY p - BCY p)^2) = p.RBC ∧
      Real.sqrt ((CDX p - BCX p)^2 + (CDY p - BCY p)^2) = p.RBC + p.RCD ∧
      Real.sqrt ((CDX p)^2 + (CDY p)^2) = p.PD/2 - p.PLD - p.RCD := by
  have hsq : p.RAB^2 - p.RBC^2 ≠ 0 := by
    intro hc
    have h0 : (p.RAB - p.RBC)*(p.RAB + p.RBC) = 0 := by linear_combination hc
    rcases mul_eq_zero.1 h0 with h | h
    · exact hne (by linarith)
    · linarith
  obtain ⟨hc2, hc1⟩ :=
    stage2_circles (BCX p) (BCY p) p.PD p.PLD p.RBC p.RCD hBCXne hQ
  refine ⟨?_, ?_, ?_, ?_⟩
  · rw [dist_B_AB_sq p hD hsq]
    exact Real.sqrt_sq hRAB.le
  · rw [dist_B_BC_sq p hD hsq]
    exact Real.sqrt_sq hRBC.le
  · unfold CDX CDY
    rw [hc1]
    exact Real.sqrt_sq (by linarith)
  · unfold CDX CDY
    rw [hc2]
    exact Real.sqrt_sq hR2

/-- An algebraically exact nondegenerate parameter point: `b = π/3`,
`PD = 2`, so `sin(b/PD) = 1/2` and all pipeline values live in `ℚ[√3]`. -/
def pOne : Params := ⟨0.5, 2, 0.25, Real.pi/3, 0, 0, 1, 2, 1⟩

lemma pOne_sin : Real.sin (pOne.b/pOne.PD) = 1/2 := by
  show Real.sin (Real.pi/3/2) = 1/2
  rw [show Real.pi/3/2 = Real.pi/6 by ring, Real.sin_pi_div_six]

lemma pOne_sin2 : Real.sin (2*pOne.b/pOne.PD) = Real.sqrt 3/2 := by
  show Real.sin (2*(Real.pi/3)/2) = Real.sqrt 3/2
  rw [show 2*(Real.pi/3)/2 = Real.pi/3 by ring, Real.sin_pi_div_three]

lemma pOne_cos2 : Real.cos (2*pOne.b/pOne.PD) = 1/2 := by
  show Real.cos (2*(Real.pi/3)/2) = 1/2
  rw [show 2*(Real.pi/3)/2 = Real.pi/3 by ring, Real.cos_pi_div_three]

lemma sqrt3_sq : Real.sqrt 3^2 = 3 := Real.sq_sqrt (by norm_num)

lemma sqrt3_pos : 0 < Real.sqrt 3 := Real.sqrt_pos.2 (by norm_num)

lemma Delta_pOne : Delta pOne = 9/16 := by
  unfold Delta
  rw [pOne_sin]
  norm_num [pOne]

lemma sqrt_Delta_pOne : Real.sqrt (Delta pOne) = 3/4 := by
  rw [Delta_pOne, show (9:ℝ)/16 = (3/4)^2 by norm_num,
    Real.sqrt_sq (by norm_num : (0:ℝ) ≤ 3/4)]

lemma RBXY_pOne : RBXY pOne = 3/2 := by
  unfold RBXY
  rw [pOne_sin, sqrt_Delta_pOne]
  norm_num [pOne]

lemma BCX_pOne : BCX pOne = -(3*Real.sqrt 3/4) := by
  rw [BCX_eq, RBXY_pOne, pOne_sin2]
  ring

lemma BCY_pOne : BCY pOne = 3/4 := by
  rw [BCY_eq, RBXY_pOne, pOne_cos2]
  norm_num

lemma BCX_pOne_ne : BCX pOne ≠ 0 := by
  rw [BCX_pOne]
  have h3 := sqrt3_pos
  intro hc
  nlinarith

lemma Qarg_pOne :
    Qarg (BCX pOne) (BCY pOne) pOne.PD pOne.PLD pOne.RBC pOne.RCD = 0 := by
  have hX2 : (-(3*Real.sqrt 3/4))^2 = 27/16 := by
    linear_combination (9/16) * sqrt3_sq
  rw [BCX_pOne, BCY_pOne]
  unfold Qarg
  rw [hX2]
  norm_num [pOne]

/-- Witness for C3 at the concrete point `pOne`. -/
theorem claim_C3_witness :
    (0 < pOne.RAB ∧ 0 < pOne.RBC ∧ 0 < pOne.RCD ∧ pOne.RAB ≠ pOne.RBC ∧
      0 ≤ Delta pOne ∧
      0 ≤ Qarg (BCX pOne) (BCY pOne) pOne.PD pOne.PLD pOne.RBC pOne.RCD ∧
      BCX pOne ≠ 0 ∧ 0 ≤ pOne.PD/2 - pOne.PLD - pOne.RCD) ∧
    (Real.sqrt ((BX pOne - ABX pOne)^2 + (BY pOne - ABY pOne)^2) = pOne.RAB ∧
      Real.sqrt ((BX pOne - BCX pOne)^2 + (BY pOne - BCY pOne)^2) = pOne.RBC ∧
      Real.sqrt ((CDX pOne - BCX pOne)^2 + (CDY pOne - BCY pOne)^2)
        = pOne.RBC + pOne.RCD ∧
      Real.sqrt ((CDX pOne)^2 + (CDY pOne)^2)
        = pOne.PD/2 - pOne.PLD - pOne.RCD) := by
  have h1 : 0 < pOne.RAB := by show (0:ℝ) < 0.5; norm_num
  have h2 : 0 < pOne.RBC := by show (0:ℝ) < 2; norm_num
  have h3 : 0 < pOne.RCD := by show (0:ℝ) < 0.25; norm_num
  have h4 : pOne.RAB ≠ pOne.RBC := by show (0.5:ℝ) ≠ 2; norm_num
  have h5 : 0 ≤ Delta pOne := by rw [Delta_pOne]; norm_num
  have h6 : 0 ≤ Qarg (BCX pOne) (BCY pOne) pOne.PD pOne.PLD pOne.RBC pOne.RCD := by
    rw [Qarg_pOne]
  have h7 : BCX pOne ≠ 0 := BCX_pOne_ne
  have h8 : 0 ≤ pOne.PD/2 - pOne.PLD - pOne.RCD := by
    show (0:ℝ) ≤ 2/2 - 0 - 0.25; norm_num
  exact ⟨⟨h1, h2, h3, h4, h5, h6, h7, h8⟩,
    claim_C3 pOne h1 h2 h3 h4 h5 h6 h7 h8⟩

/-- Witness for C10 at `(3, 4)`, `θ = 5`, and the pipeline point `pZeroB`. -/
theorem claim_C10_witness :
    ((3:ℝ)^2 + 4^2 > 0 ∧
      (reflect_point 3 4 5).1^2 + (reflect_point 3 4 5).2^2 = (3:ℝ)^2 + 4^2) ∧
      0 ≤ RBXY pZeroB ∧
      Real.sqrt ((FGX pZeroB)^2 + (FGY pZeroB)^2) = RBXY pZeroB := by
  have h1 : (3:ℝ)^2 + 4^2 > 0 := by norm_num
  have h2 : 0 ≤ RBXY pZeroB := by rw [RBXY_pZeroB]; norm_num
  exact ⟨⟨h1, claim_C10.1 3 4 5 h1⟩, h2, ((claim_C10.2 pZeroB).2.2.2.2.2.2) h2⟩


/-! ## Numeric enclosures for the reference fixture (claim C2)

The fixture values are enclosed in explicit rational intervals.  `sin` at
the base angle `aF/81` is bounded with Mathlib's cubic `Real.sin_bound`;
the angle is then rebuilt by exact triple- and double-angle identities,
and every later pipeline quantity by exact interval propagation. -/

/-- The fixture half-tooth angle `b/PD = 0.4/6.36619772368`. -/
def aF : ℝ := 0.4/6.36619772368

lemma pFix_angle : pFix.b/pFix.PD = aF := rfl

lemma pFix_angle2 : 2*pFix.b/pFix.PD = 2*aF := by
  show (2:ℝ)*0.4/6.36619772368 = 2*(0.4/6.36619772368)
  ring

lemma sin3_mono {s t : ℝ} (h0 : 0 ≤ s) (h1 : s ≤ t) (h2 : t ≤ 1/2) :
    3*s - 4*s^3 ≤ 3*t - 4*t^3 := by
  nlinarith [mul_nonneg (sub_nonneg.2 h1)
    (show (0:ℝ) ≤ 3 - 4*(t^2 + t*s + s^2) by nlinarith [mul_nonneg h0 (le_trans h0 h1)])]

lemma sin_triple_interval {x lo hi nlo nhi : ℝ}
    (hs : lo ≤ Real.sin x ∧ Real.sin x ≤ hi) (h0 : 0 ≤ lo) (hh : hi ≤ 1/2)
    (h1 : nlo ≤ 3*lo - 4*lo^3) (h2 : 3*hi - 4*hi^3 ≤ nhi) :
    nlo ≤ Real.sin (3*x) ∧ Real.sin (3*x) ≤ nhi := by
  rw [Real.sin_three_mul]
  constructor
  · have := sin3_mono h0 hs.1 (le_trans hs.2 hh)
    linarith
  · have := sin3_mono (le_trans h0 hs.1) hs.2 hh
    linarith

lemma sqrt_interval {q lo hi a b : ℝ} (hq : a ≤ q ∧ q ≤ b) (h0 : 0 ≤ lo)
    (h1 : lo^2 ≤ a) (h2 : b ≤ hi^2) (h3 : 0 ≤ hi) :
    lo ≤ Real.sqrt q ∧ Real.sqrt q ≤ hi := by
  constructor
  · have hq2 : lo^2 ≤ q := le_trans h1 hq.1
    exact (Real.le_sqrt h0 (le_trans (sq_nonneg lo) hq2)).2 hq2
  · calc Real.sqrt q ≤ Real.sqrt (hi^2) := Real.sqrt_le_sqrt (le_trans hq.2 h2)
      _ = hi := Real.sqrt_sq h3

lemma mul_interval_pos {x y xl xu yl yu lo hi : ℝ}
    (hx : xl ≤ x ∧ x ≤ xu) (hy : yl ≤ y ∧ y ≤ yu)
    (hxl : 0 ≤ xl) (hyl : 0 ≤ yl) (h1 : lo ≤ xl*yl) (h2 : xu*yu ≤ hi) :
    lo ≤ x*y ∧ x*y ≤ hi := by
  obtain ⟨a1, a2⟩ := hx; obtain ⟨b1, b2⟩ := hy
  constructor
  · nlinarith
  · nlinarith

lemma mul_interval_negpos {x y xl xu yl yu lo hi : ℝ}
    (hx : xl ≤ x ∧ x ≤ xu) (hy : yl ≤ y ∧ y ≤ yu)
    (hxu : xu ≤ 0) (hyl : 0 ≤ yl) (h1 : lo ≤ xl*yu) (h2 : xu*yl ≤ hi) :
    lo ≤ x*y ∧ x*y ≤ hi := by
  obtain ⟨a1, a2⟩ := hx; obtain ⟨b1, b2⟩ := hy
  constructor
  · nlinarith
  · nlinarith

lemma div_interval_pos {z d r dlo dhi rlo rhi lo hi : ℝ}
    (hzd : d*z = r) (hd : dlo ≤ d ∧ d ≤ dhi) (hr : rlo ≤ r ∧ r ≤ rhi)
    (hdlo : 0 < dlo) (h1 : lo*dhi ≤ rlo) (h2 : rhi ≤ hi*dlo)
    (hlo : 0 ≤ lo) (hhi : 0 ≤ hi) :
    lo ≤ z ∧ z ≤ hi := by
  have hdpos : 0 < d := lt_of_lt_of_le hdlo hd.1
  constructor
  · by_contra hc
    push_neg at hc
    have hlt : d*z < d*lo := mul_lt_mul_of_pos_left hc hdpos
    have h3 : d*lo ≤ dhi*lo := mul_le_mul_of_nonneg_right hd.2 hlo
    nlinarith [hr.1]
  · by_contra hc
    push_neg at hc
    have hlt : d*hi < d*z := mul_lt_mul_of_pos_left hc hdpos
    have h3 : dlo*hi ≤ d*hi := mul_le_mul_of_nonneg_right hd.1 hhi
    nlinarith [hr.2]

lemma fxS81 : (0.0007757018119641838283428:ℝ) ≤ Real.sin (aF/81)
    ∧ Real.sin (aF/81) ≤ 0.0007757018120018983118819 := by
  have hnn : (0:ℝ) ≤ aF/81 := by unfold aF; positivity
  have hle : |aF/81| ≤ 1 := by
    rw [abs_of_nonneg hnn]; unfold aF; norm_num
  have h := Real.sin_bound hle
  rw [abs_of_nonneg hnn] at h
  obtain ⟨h1, h2⟩ := abs_le.1 h
  have e1 : (0.0007757018119641838283428:ℝ)
      ≤ (aF/81 - (aF/81)^3/6) - (aF/81)^4*(5/96) := by
    unfold aF; norm_num
  have e2 : (aF/81 - (aF/81)^3/6) + (aF/81)^4*(5/96)
      ≤ 0.0007757018120018983118819 := by
    unfold aF; norm_num
  constructor <;> linarith

lemma fxS27 : (0.002327103568892159748183:ℝ) ≤ Real.sin (aF/27)
    ∧ Real.sin (aF/27) ≤ 0.002327103569005302926482 := by
  rw [show (aF/27) = 3*(aF/81) from by ring]
  exact sin_triple_interval fxS81 (by norm_num) (by norm_num)
    (by norm_num) (by norm_num)

lemma fxS9 : (0.006981260297787229341044:ℝ) ≤ Real.sin (aF/9)
    ∧ Real.sin (aF/9) ≤ 0.006981260298126651523340 := by
  rw [show (aF/9) = 3*(aF/27) from by ring]
  exact sin_triple_interval fxS27 (by norm_num) (by norm_num)
    (by norm_num) (by norm_num)

lemma fxS3 : (0.02094241988283409202188:ℝ) ≤ Real.sin (aF/3)
    ∧ Real.sin (aF/3) ≤ 0.02094241988385216005570 := by
  rw [show (aF/3) = 3*(aF/9) from by ring]
  exact sin_triple_interval fxS9 (by norm_num) (by norm_num)
    (by norm_num) (by norm_num)

lemma fxS1 : (0.06279051952774752563461:ℝ) ≤ Real.sin (aF)
    ∧ Real.sin (aF) ≤ 0.06279051953079637162426 := by
  rw [show (aF) = 3*(aF/3) from by ring]
  exact sin_triple_interval fxS3 (by norm_num) (by norm_num)
    (by norm_num) (by norm_num)

lemma fxSsq : (0.003942649342564443349643:ℝ) ≤ Real.sin aF^2 ∧ Real.sin aF^2 ≤ 0.003942649342947320596954 := by
  have h := fxS1
  constructor
  · nlinarith [h.1, h.2]
  · nlinarith [h.1, h.2]

lemma fxS4p : (0.00001554448383842383736645:ℝ) ≤ Real.sin aF^4 ∧ Real.sin aF^4 ≤ 0.00001554448384144293882139 := by
  have h := fxSsq
  have he : Real.sin aF^4 = (Real.sin aF^2)^2 := by ring
  rw [he]
  constructor
  · nlinarith [h.1, h.2]
  · nlinarith [h.1, h.2]

lemma cosaF_nonneg : 0 ≤ Real.cos aF := by
  have hpi := Real.pi_gt_3141592
  apply Real.cos_nonneg_of_mem_Icc
  apply Set.mem_Icc.mpr
  constructor
  · have h1 : (0:ℝ) < 0.4/6.36619772368 := by norm_num
    have h2 := Real.pi_pos
    unfold aF
    linarith
  · have h1 : (0.4:ℝ)/6.36619772368 ≤ 0.07 := by norm_num
    unfold aF
    linarith

lemma fxC1 : (0.9980267284281782597808:ℝ) ≤ Real.cos aF ∧ Real.cos aF ≤ 0.9980267284283700769119 := by
  have heq : Real.cos aF = Real.sqrt (1 - Real.sin aF^2) := by
    rw [← Real.cos_sq' aF, Real.sqrt_sq cosaF_nonneg]
  rw [heq]
  have h := fxSsq
  have hq : (0.996057350657052679403046:ℝ) ≤ 1 - Real.sin aF^2
      ∧ 1 - Real.sin aF^2 ≤ 0.996057350657435556650357 :=
    ⟨by linarith [h.2], by linarith [h.1]⟩
  exact sqrt_interval hq (by norm_num) (by norm_num) (by norm_num) (by norm_num)

lemma fxSin2 : (0.1253332335611670072026:ℝ) ≤ Real.sin (2*aF)
    ∧ Real.sin (2*aF) ≤ 0.1253332335672767553744 := by
  rw [Real.sin_two_mul]
  have h := mul_interval_pos fxS1 fxC1 (by norm_num) (by norm_num)
    (show (0.06279051952774752563461:ℝ)*0.9980267284281782597808 ≥ 0.1253332335611670072026/2 from by norm_num)
    (show (0.06279051953079637162426:ℝ)*0.9980267284283700769119 ≤ 0.1253332335672767553744/2 from by norm_num)
  constructor <;> linarith [h.1, h.2]

lemma fxCos2 : (0.9921147013141053588060:ℝ) ≤ Real.cos (2*aF)
    ∧ Real.cos (2*aF) ≤ 0.9921147013148711133008 := by
  have heq : Real.cos (2*aF) = 1 - 2*Real.sin aF^2 := by
    rw [Real.cos_two_mul, Real.cos_sq']; ring
  rw [heq]
  have h := fxSsq
  constructor <;> linarith [h.1, h.2]

lemma fxDelta : (0.08059990581041226239590:ℝ) ≤ Delta pFix ∧ Delta pFix ≤ 0.08059990582195102103032 := by
  unfold Delta
  rw [pFix_angle]
  have h2 := fxSsq
  have h4 := fxS4p
  simp only [pFix]
  constructor
  · linarith [h2.1, h2.2, h4.1, h4.2]
  · linarith [h2.1, h2.2, h4.1, h4.2]

lemma fxU : (0.2839012254471830602279:ℝ) ≤ Real.sqrt (Delta pFix)
    ∧ Real.sqrt (Delta pFix) ≤ 0.2839012254675048440030 :=
  sqrt_interval fxDelta (by norm_num) (by norm_num) (by norm_num) (by norm_num)

lemma fxRBXY : (2.996440901124810074077:ℝ) ≤ RBXY pFix ∧ RBXY pFix ≤ 2.996440901147225506345 := by
  unfold RBXY
  rw [pFix_angle]
  have h2 := fxSsq
  have hu := fxU
  set u := Real.sqrt (Delta pFix) with hudef
  simp only [pFix]
  constructor
  · linarith [h2.1, h2.2, hu.1, hu.2]
  · linarith [h2.1, h2.2, hu.1, hu.2]

lemma fxWs2 : (0.3755536273129095558387:ℝ) ≤ RBXY pFix*Real.sin (2*aF)
    ∧ RBXY pFix*Real.sin (2*aF) ≤ 0.3755536273340264537643 :=
  mul_interval_pos fxRBXY fxSin2 (by norm_num) (by norm_num)
    (by norm_num) (by norm_num)

lemma fxBCX : (-0.3755536273340264537643:ℝ) ≤ BCX pFix ∧ BCX pFix ≤ -0.3755536273129095558387 := by
  rw [BCX_eq, pFix_angle2]
  have h := fxWs2
  constructor <;> linarith [h.1, h.2]

lemma fxBCY : (2.972813069624809654713:ℝ) ≤ BCY pFix ∧ BCY pFix ≤ 2.972813069649342872692 := by
  rw [BCY_eq, pFix_angle2]
  have h := mul_interval_pos fxRBXY fxCos2 (by norm_num) (by norm_num)
    (show (2.996440901124810074077:ℝ)*0.9921147013141053588060 ≥ 2.972813069624809654713 from by norm_num)
    (show (2.996440901147225506345:ℝ)*0.9921147013148711133008 ≤ 2.972813069649342872692 from by norm_num)
  exact h

lemma fxhne : pFix.RAB^2 - pFix.RBC^2 ≠ 0 := by
  show (0.555:ℝ)^2 - 1^2 ≠ 0
  norm_num

lemma fxBX : (0.4683871082217186595291:ℝ) ≤ BX pFix ∧ BX pFix ≤ 0.4683871082480554648072 := by
  have he : (0.445:ℝ)*BX pFix = 0.555*(RBXY pFix*Real.sin (2*aF)) := by
    rw [BX_simp pFix fxhne, pFix_angle2]
    show (0.445:ℝ)*(-(0.555*RBXY pFix*Real.sin (2*aF))/(0.555 - 1)) = _
    have hne : (0.555:ℝ) - 1 ≠ 0 := by norm_num
    field_simp
    ring
  have h := fxWs2
  constructor <;> linarith [h.1, h.2, he]

lemma fxAX : (-0.4683871082480554648072:ℝ) ≤ AX pFix ∧ AX pFix ≤ -0.4683871082217186595291 := by
  rw [AX_eq_neg_BX]
  have h := fxBX
  constructor <;> linarith [h.1, h.2]

lemma fxBY : (2.436376647605875743047:ℝ) ≤ BY pFix ∧ BY pFix ≤ 2.436376647636473351988 := by
  have hABY : ABY pFix = 2.73409886184 := by
    show (6.36619772368:ℝ)/2 - 0.254 + 0.555 - 0.75 = 2.73409886184
    norm_num
  have he : (0.445:ℝ)*BY pFix = 2.73409886184 - 0.555*BCY pFix := by
    rw [BY_simp pFix fxhne, hABY]
    show (0.445:ℝ)*((0.555*BCY pFix - 1*2.73409886184)/(0.555 - 1)) = _
    have hne : (0.555:ℝ) - 1 ≠ 0 := by norm_num
    field_simp
    ring
  have h := fxBCY
  constructor <;> linarith [h.1, h.2, he]

lemma fxN : (8.978658073933663822657:ℝ) ≤ (BCX pFix)^2 + (BCY pFix)^2
    ∧ (BCX pFix)^2 + (BCY pFix)^2 ≤ 8.978658074067996858787 := by
  rw [norm_BC_sq]
  have h := fxRBXY
  constructor
  · nlinarith [h.1, h.2]
  · nlinarith [h.1, h.2]

lemma fxQ : (653.6354473383683450622:ℝ) ≤ Qarg (BCX pFix) (BCY pFix) 6.36619772368 0.254 1 0.15
    ∧ Qarg (BCX pFix) (BCY pFix) 6.36619772368 0.254 1 0.15 ≤ 653.6354474708801670770 := by
  rw [Qarg_eq]
  have h := fxN
  set N := (BCX pFix)^2 + (BCY pFix)^2 with hNdef
  constructor
  · nlinarith [h.1, h.2]
  · nlinarith [h.1, h.2]

lemma fxQpos : 0 ≤ Qarg (BCX pFix) (BCY pFix) 6.36619772368 0.254 1 0.15 := by
  linarith [fxQ.1]

lemma fxBCXne : BCX pFix ≠ 0 := by
  intro hc
  have h := fxBCX.2
  rw [hc] at h
  norm_num at h

lemma fxSqQ : (25.56629514298793244419:ℝ)
      ≤ Real.sqrt (Qarg (BCX pFix) (BCY pFix) 6.36619772368 0.254 1 0.15)
    ∧ Real.sqrt (Qarg (BCX pFix) (BCY pFix) 6.36619772368 0.254 1 0.15)
      ≤ 25.56629514557946597041 :=
  sqrt_interval fxQ (by norm_num) (by norm_num) (by norm_num) (by norm_num)

lemma fxK : (61.51819423125618892337:ℝ) ≤ 4*((BCX pFix)^2 + (BCY pFix)^2) + 6.36619772368^2 - 4*6.36619772368*0.254 - 4*6.36619772368*0.15 + 4*0.254^2 + 8*0.254*0.15 - 4*1^2 - 8*1*0.15
    ∧ (4*((BCX pFix)^2 + (BCY pFix)^2) + 6.36619772368^2 - 4*6.36619772368*0.254 - 4*6.36619772368*0.15 + 4*0.254^2 + 8*0.254*0.15 - 4*1^2 - 8*1*0.15) ≤ 61.51819423179352106790 := by
  have h := fxN
  constructor <;> linarith [h.1, h.2]

lemma fxCDY : (2.679737956391073808414:ℝ) ≤ CDY pFix ∧ CDY pFix ≤ 2.679737956495482320465 := by
  have hlin := CDYg_lin (BCX pFix) (BCY pFix) 6.36619772368 0.254 1 0.15 fxBCXne
  have hdef : CDY pFix = CDYg (BCX pFix) (BCY pFix) 6.36619772368 0.254 1 0.15 := rfl
  have hYK := mul_interval_pos fxBCY fxK (by norm_num) (by norm_num)
    (show (182.8820918303959684147:ℝ) ≤ 2.972813069624809654713*61.51819423125618892337 from by norm_num)
    (show (2.972813069649342872692:ℝ)*61.51819423179352106790 ≤ 182.8820918335025957055 from by norm_num)
  have hXw := mul_interval_negpos fxBCX fxSqQ (by norm_num) (by norm_num)
    (show (-9.601514879414680365280:ℝ) ≤ (-0.3755536273340264537643:ℝ)*25.56629514557946597041 from by norm_num)
    (show (-0.3755536273129095558387:ℝ)*25.56629514298793244419 ≤ -9.601514877901539704279 from by norm_num)
  have hd : (8:ℝ)*8.978658073933663822657 ≤ 8*((BCX pFix)^2 + (BCY pFix)^2)
      ∧ 8*((BCX pFix)^2 + (BCY pFix)^2) ≤ 8*8.978658074067996858787 := by
    have h := fxN
    constructor <;> linarith [h.1, h.2]
  have hr : (192.4836067082975081189:ℝ)
        ≤ BCY pFix*(4*((BCX pFix)^2 + (BCY pFix)^2) + 6.36619772368^2 - 4*6.36619772368*0.254 - 4*6.36619772368*0.15 + 4*0.254^2 + 8*0.254*0.15 - 4*1^2 - 8*1*0.15)
          - BCX pFix*Real.sqrt (Qarg (BCX pFix) (BCY pFix) 6.36619772368 0.254 1 0.15)
      ∧ BCY pFix*(4*((BCX pFix)^2 + (BCY pFix)^2) + 6.36619772368^2 - 4*6.36619772368*0.254 - 4*6.36619772368*0.15 + 4*0.254^2 + 8*0.254*0.15 - 4*1^2 - 8*1*0.15)
          - BCX pFix*Real.sqrt (Qarg (BCX pFix) (BCY pFix) 6.36619772368 0.254 1 0.15)
        ≤ 192.4836067129172760708 := by
    constructor <;> linarith [hYK.1, hYK.2, hXw.1, hXw.2]
  have hzd : (8*((BCX pFix)^2 + (BCY pFix)^2))*(CDY pFix)
      = BCY pFix*(4*((BCX pFix)^2 + (BCY pFix)^2) + 6.36619772368^2 - 4*6.36619772368*0.254 - 4*6.36619772368*0.15 + 4*0.254^2 + 8*0.254*0.15 - 4*1^2 - 8*1*0.15)
        - BCX pFix*Real.sqrt (Qarg (BCX pFix) (BCY pFix) 6.36619772368 0.254 1 0.15) := by
    rw [hdef]
    linear_combination hlin
  exact div_interval_pos hzd hd hr (by norm_num) (by norm_num) (by norm_num)
    (by norm_num) (by norm_num)

lemma fxCDX : (0.7364746891630213909644:ℝ) ≤ CDX pFix ∧ CDX pFix ≤ 0.7364746903848127148938 := by
  have hlin := CDXg_lin (BCX pFix) (BCY pFix) 6.36619772368 0.254 1 0.15 fxBCXne
  have hdefX : CDX pFix = CDXg (BCX pFix) (BCY pFix) 6.36619772368 0.254 1 0.15 := rfl
  have hdefY : CDY pFix = CDYg (BCX pFix) (BCY pFix) 6.36619772368 0.254 1 0.15 := rfl
  have hYC := mul_interval_pos fxBCY fxCDY (by norm_num) (by norm_num)
    (show (7.966360019929062439850:ℝ) ≤ 2.972813069624809654713*2.679737956391073808414 from by norm_num)
    (show (2.972813069649342872692:ℝ)*2.679737956495482320465 ≤ 7.966360020305192024470 from by norm_num)
  have hd : (3.004429018503276446709:ℝ) ≤ -(8*BCX pFix) ∧ -(8*BCX pFix) ≤ 3.004429018672211630115 := by
    have h := fxBCX
    constructor <;> linarith [h.1, h.2]
  have hN := fxN
  have hzd : (-(8*BCX pFix))*(CDX pFix)
      = -(4*((BCX pFix)^2 + (BCY pFix)^2) - 8*(BCY pFix*(CDY pFix))
          + (6.36619772368^2 - 4*6.36619772368*0.254 - 4*6.36619772368*0.15
            + 4*0.254^2 + 8*0.254*0.15 - 4*1^2 - 8*1*0.15)) := by
    rw [hdefX, hdefY]
    linear_combination (-1 : ℝ) * hlin
  have hr : (2.212685927638978450909:ℝ)
        ≤ -(4*((BCX pFix)^2 + (BCY pFix)^2) - 8*(BCY pFix*(CDY pFix))
          + (6.36619772368^2 - 4*6.36619772368*0.254 - 4*6.36619772368*0.15
            + 4*0.254^2 + 8*0.254*0.15 - 4*1^2 - 8*1*0.15))
      ∧ -(4*((BCX pFix)^2 + (BCY pFix)^2) - 8*(BCY pFix*(CDY pFix))
          + (6.36619772368^2 - 4*6.36619772368*0.254 - 4*6.36619772368*0.15
            + 4*0.254^2 + 8*0.254*0.15 - 4*1^2 - 8*1*0.15))
        ≤ 2.212685931185347272390 := by
    constructor <;> linarith [hYC.1, hYC.2, hN.1, hN.2]
  exact div_interval_pos hzd hd hr (by norm_num) (by norm_num) (by norm_num)
    (by norm_num) (by norm_num)

lemma fxCX : (0.5914275172866510646176:ℝ) ≤ CX pFix ∧ CX pFix ≤ 0.5914275186705608522674 := by
  have he : CX pFix = CDX pFix - (3/23)*(CDX pFix - BCX pFix) := by
    show Cg (BCX pFix) (CDX pFix) 1 0.15 = _
    unfold Cg
    rw [show (0.15:ℝ)/(0.15 + 1) = 3/23 from by norm_num]
  rw [he]
  have h1 := fxCDX
  have h2 := fxBCX
  constructor <;> linarith [h1.1, h1.2, h2.1, h2.2]

lemma fxCY : (2.717965145060116504185:ℝ) ≤ CY pFix ∧ CY pFix ≤ 2.717965145181343502763 := by
  have he : CY pFix = CDY pFix - (3/23)*(CDY pFix - BCY pFix) := by
    show Cg (BCY pFix) (CDY pFix) 1 0.15 = _
    unfold Cg
    rw [show (0.15:ℝ)/(0.15 + 1) = 3/23 from by norm_num]
  rw [he]
  have h1 := fxCDY
  have h2 := fxBCY
  constructor <;> linarith [h1.1, h1.2, h2.1, h2.2]

lemma fxCDR : CDR pFix = 2.77909886184 := by
  have h := (stage2_circles (BCX pFix) (BCY pFix) 6.36619772368 0.254 1 0.15
    fxBCXne fxQpos).1
  show Real.sqrt ((CDXg (BCX pFix) (BCY pFix) 6.36619772368 0.254 1 0.15)^2
    + (CDYg (BCX pFix) (BCY pFix) 6.36619772368 0.254 1 0.15)^2) = 2.77909886184
  rw [h, show (6.36619772368:ℝ)/2 - 0.254 - 0.15 = 2.77909886184 from by norm_num]
  exact Real.sqrt_sq (by norm_num)

lemma fxDX : (0.7762254173185904479206:ℝ) ≤ DX pFix ∧ DX pFix ≤ 0.7762254186063271403672 := by
  have he : (2.77909886184:ℝ)*DX pFix = CDX pFix*(2.77909886184 + 0.15) := by
    show (2.77909886184:ℝ)*Dg (CDX pFix) (CDR pFix) 0.15 = _
    unfold Dg
    rw [fxCDR, mul_comm,
      div_mul_cancel₀ _ (show (2.77909886184:ℝ) ≠ 0 from by norm_num)]
  have h := fxCDX
  constructor <;> linarith [h.1, h.2, he]

lemma fxDY : (2.824375018058080817223:ℝ) ≤ DY pFix ∧ DY pFix ≤ 2.824375018168124708794 := by
  have he : (2.77909886184:ℝ)*DY pFix = CDY pFix*(2.77909886184 + 0.15) := by
    show (2.77909886184:ℝ)*Dg (CDY pFix) (CDR pFix) 0.15 = _
    unfold Dg
    rw [fxCDR, mul_comm,
      div_mul_cancel₀ _ (show (2.77909886184:ℝ) ≠ 0 from by norm_num)]
  have h := fxCDY
  constructor <;> linarith [h.1, h.2, he]

lemma fxS4a : (0.2486898871585364217198:ℝ) ≤ Real.sin (4*aF)
    ∧ Real.sin (4*aF) ≤ 0.2486898871708515126589 := by
  rw [show (4:ℝ)*aF = 2*(2*aF) from by ring, Real.sin_two_mul]
  have h := mul_interval_pos fxSin2 fxCos2 (by norm_num) (by norm_num)
    (show (0.1253332335611670072026:ℝ)*0.9921147013141053588060 ≥ 0.2486898871585364217198/2 from by norm_num)
    (show (0.1253332335672767553744:ℝ)*0.9921147013148711133008 ≤ 0.2486898871708515126589/2 from by norm_num)
  constructor <;> linarith [h.1, h.2]

lemma fxC4a : (0.9685831611271409023290:ℝ) ≤ Real.cos (4*aF)
    ∧ Real.cos (4*aF) ≤ 0.9685831611302039203077 := by
  have heq : Real.cos (4*aF) = 1 - 2*Real.sin (2*aF)^2 := by
    rw [show (4:ℝ)*aF = 2*(2*aF) from by ring, Real.cos_two_mul, Real.cos_sq']
    ring
  rw [heq]
  have h := fxSin2
  constructor
  · nlinarith [h.1, h.2]
  · nlinarith [h.1, h.2]

lemma fxS5a : (0.3090169943670080942459:ℝ) ≤ Real.sin (5*aF)
    ∧ Real.sin (5*aF) ≤ 0.3090169943824919765238 := by
  rw [show (5:ℝ)*aF = 4*aF + aF from by ring, Real.sin_add]
  have p1 := mul_interval_pos fxS4a fxC1 (by norm_num) (by norm_num)
    (show (0.2481991544740069253464:ℝ) ≤ 0.2486898871585364217198*0.9980267284281782597808 from by norm_num)
    (show (0.2486898871708515126589:ℝ)*0.9980267284283700769119 ≤ 0.2481991544863454182475 from by norm_num)
  have p2 := mul_interval_pos fxC4a fxS1 (by norm_num) (by norm_num)
    (show (0.06081783989300116889956:ℝ) ≤ 0.9685831611271409023290*0.06279051952774752563461 from by norm_num)
    (show (0.9685831611302039203077:ℝ)*0.06279051953079637162426 ≤ 0.06081783989614655827623 from by norm_num)
  constructor <;> linarith [p1.1, p1.2, p2.1, p2.2]

lemma fxC5a : (0.9510565162928305812089:ℝ) ≤ Real.cos (5*aF)
    ∧ Real.cos (5*aF) ≤ 0.9510565162976048339880 := by
  rw [show (5:ℝ)*aF = 4*aF + aF from by ring, Real.cos_add]
  have p1 := mul_interval_pos fxC4a fxC1 (by norm_num) (by norm_num)
    (show (0.9666718835103434791307:ℝ) ≤ 0.9685831611271409023290*0.9980267284281782597808 from by norm_num)
    (show (0.9685831611302039203077:ℝ)*0.9980267284283700769119 ≤ 0.9666718835135862437864 from by norm_num)
  have p2 := mul_interval_pos fxS4a fxS1 (by norm_num) (by norm_num)
    (show (0.01561536721598140979845:ℝ) ≤ 0.2486898871585364217198*0.06279051952774752563461 from by norm_num)
    (show (0.2486898871708515126589:ℝ)*0.06279051953079637162426 ≤ 0.01561536721751289792173 from by norm_num)
  constructor <;> linarith [p1.1, p1.2, p2.1, p2.2]

lemma fxS10a : (0.5877852522759359390424:ℝ) ≤ Real.sin (10*aF)
    ∧ Real.sin (10*aF) ≤ 0.5877852523083386838068 := by
  rw [show (10:ℝ)*aF = 2*(5*aF) from by ring, Real.sin_two_mul]
  have h := mul_interval_pos fxS5a fxC5a (by norm_num) (by norm_num)
    (show (0.3090169943670080942459:ℝ)*0.9510565162928305812089 ≥ 0.5877852522759359390424/2 from by norm_num)
    (show (0.3090169943824919765238:ℝ)*0.9510565162976048339880 ≤ 0.5877852523083386838068/2 from by norm_num)
  constructor <;> linarith [h.1, h.2]

lemma fxC10a : (0.8090169943656218444493:ℝ) ≤ Real.cos (10*aF)
    ∧ Real.cos (10*aF) ≤ 0.8090169943847609755005 := by
  have heq : Real.cos (10*aF) = 1 - 2*Real.sin (5*aF)^2 := by
    rw [show (10:ℝ)*aF = 2*(5*aF) from by ring, Real.cos_two_mul, Real.cos_sq']
    ring
  rw [heq]
  have h := fxS5a
  constructor
  · nlinarith [h.1, h.2]
  · nlinarith [h.1, h.2]

lemma fx2T : 2*TANG pFix = -(10*aF) := by
  rw [TANG_eq]
  show 2*(-(2:ℝ)/6.36619772368) = -(10*(0.4/6.36619772368))
  norm_num

lemma fxCos2T : Real.cos (2*TANG pFix) = Real.cos (10*aF) := by
  rw [fx2T, Real.cos_neg]

lemma fxSin2T : Real.sin (2*TANG pFix) = -Real.sin (10*aF) := by
  rw [fx2T, Real.sin_neg]

lemma fxEX : (1.032146427385176454851:ℝ) ≤ EX pFix ∧ EX pFix ≤ 1.032146428598033282723 := by
  have he : EX pFix = -(DX pFix*Real.cos (2*TANG pFix)
      + DY pFix*Real.sin (2*TANG pFix)) := by
    show (reflect_point (DX pFix) (DY pFix) (TANG pFix)).1 = _
    rw [reflect_point_eq (DX pFix) (DY pFix) (TANG pFix) (by linarith [fxDY.1])]
  rw [he, fxCos2T, fxSin2T]
  have p1 := mul_interval_pos fxDY fxS10a (by norm_num) (by norm_num)
    (show (1.660125982511120156603:ℝ) ≤ 2.824375018058080817223*0.5877852522759359390424 from by norm_num)
    (show (2.824375018168124708794:ℝ)*0.5877852523083386838068 ≤ 1.660125982667319836005 from by norm_num)
  have p2 := mul_interval_pos fxDX fxC10a (by norm_num) (by norm_num)
    (show (0.6279795540692865532822:ℝ) ≤ 0.7762254173185904479206*0.8090169943656218444493 from by norm_num)
    (show (0.7762254186063271403672:ℝ)*0.8090169943847609755005 ≤ 0.6279795551259437017518 from by norm_num)
  constructor <;> nlinarith [p1.1, p1.2, p2.1, p2.2]

lemma fxFY : (2.546512364898321492601:ℝ) ≤ FY pFix ∧ FY pFix ≤ 2.546512365881021324330 := by
  have he : FY pFix = CY pFix*Real.cos (2*TANG pFix)
      - CX pFix*Real.sin (2*TANG pFix) := by
    show (reflect_point (CX pFix) (CY pFix) (TANG pFix)).2 = _
    rw [reflect_point_eq (CX pFix) (CY pFix) (TANG pFix) (by linarith [fxCY.1])]
  rw [he, fxCos2T, fxSin2T]
  have p1 := mul_interval_pos fxCY fxC10a (by norm_num) (by norm_num)
    (show (2.198879992447056832991:ℝ) ≤ 2.717965145060116504185*0.8090169943656218444493 from by norm_num)
    (show (2.717965145181343502763:ℝ)*0.8090169943847609755005 ≤ 2.198879992597151026124 from by norm_num)
  have p2 := mul_interval_pos fxCX fxS10a (by norm_num) (by norm_num)
    (show (0.3476323724512646596103:ℝ) ≤ 0.5914275172866510646176*0.5877852522759359390424 from by norm_num)
    (show (0.5914275186705608522674:ℝ)*0.5877852523083386838068 ≤ 0.3476323732838702982054 from by norm_num)
  constructor <;> nlinarith [p1.1, p1.2, p2.1, p2.2]

lemma fxGY : (2.246381147157594424754:ℝ) ≤ GY pFix ∧ GY pFix ≤ 2.246381147259635955979 := by
  have he : GY pFix = BY pFix*Real.cos (2*TANG pFix)
      - BX pFix*Real.sin (2*TANG pFix) := by
    show (reflect_point (BX pFix) (BY pFix) (TANG pFix)).2 = _
    rw [reflect_point_eq (BX pFix) (BY pFix) (TANG pFix) (by linarith [fxBY.1])]
  rw [he, fxCos2T, fxSin2T]
  have p1 := mul_interval_pos fxBY fxC10a (by norm_num) (by norm_num)
    (show (1.971070112588695414048:ℝ) ≤ 2.436376647605875743047*0.8090169943656218444493 from by norm_num)
    (show (2.436376647636473351988:ℝ)*0.8090169943847609755005 ≤ 1.971070112660079531618 from by norm_num)
  have p2 := mul_interval_pos fxBX fxS10a (by norm_num) (by norm_num)
    (show (0.2753110345688990107069:ℝ) ≤ 0.4683871082217186595291*0.5877852522759359390424 from by norm_num)
    (show (0.4683871082480554648072:ℝ)*0.5877852523083386838068 ≤ 0.2753110345995564243610 from by norm_num)
  constructor <;> nlinarith [p1.1, p1.2, p2.1, p2.2]

lemma fxFGX : (2.051204946890415250477:ℝ) ≤ FGX pFix ∧ FGX pFix ≤ 2.051204947025434516707 := by
  have he : FGX pFix = -(BCX pFix*Real.cos (2*TANG pFix)
      + BCY pFix*Real.sin (2*TANG pFix)) := by
    show (reflect_point (BCX pFix) (BCY pFix) (TANG pFix)).1 = _
    rw [reflect_point_eq (BCX pFix) (BCY pFix) (TANG pFix) (by linarith [fxBCY.1])]
  rw [he, fxCos2T, fxSin2T]
  have p1 := mul_interval_pos fxBCY fxS10a (by norm_num) (by norm_num)
    (show (1.747375680098618254311:ℝ) ≤ 2.972813069624809654713*0.5877852522759359390424 from by norm_num)
    (show (2.972813069649342872692:ℝ)*0.5877852523083386838068 ≤ 1.747375680209365821160 from by norm_num)
  have p2 := mul_interval_negpos fxBCX fxC10a (by norm_num) (by norm_num)
    (show (-0.3038292668160686955467:ℝ) ≤ (-0.3755536273340264537643:ℝ)*0.8090169943847609755005 from by norm_num)
    (show (-0.3755536273129095558387:ℝ)*0.8090169943656218444493 ≤ -0.3038292667917969961662 from by norm_num)
  constructor <;> nlinarith [p1.1, p1.2, p2.1, p2.2]

/-- Claim C2: at the reference fixture (`RAB=0.555, RBC=1, RCD=0.15, b=0.4,
h=0.75, PLD=0.254, t=10, P=2, PD=6.36619772368`) the full pipeline matches
the thirteen quoted values to 9 significant digits (within `1e-9`). -/
theorem claim_C2 :
    |AX pFix - (-0.468387108)| < 1e-9 ∧
    |BY pFix - 2.436376648| < 1e-9 ∧
    |ABY pFix - 2.734098862| < 1e-9 ∧
    |BCY pFix - 2.972813070| < 1e-9 ∧
    |RBXY pFix - 2.996440901| < 1e-9 ∧
    |CDX pFix - 0.736474690| < 1e-9 ∧
    |CX pFix - 0.591427518| < 1e-9 ∧
    |DX pFix - 0.776225418| < 1e-9 ∧
    |TANG pFix - (-0.314159265)| < 1e-9 ∧
    |EX pFix - 1.032146428| < 1e-9 ∧
    |FY pFix - 2.546512365| < 1e-9 ∧
    |GY pFix - 2.246381147| < 1e-9 ∧
    |FGX pFix - 2.051204947| < 1e-9 := by
  refine ⟨?_, ?_, ?_, ?_, ?_, ?_, ?_, ?_, ?_, ?_, ?_, ?_, ?_⟩
  · rw [abs_lt]; constructor <;> linarith [fxAX.1, fxAX.2]
  · rw [abs_lt]; constructor <;> linarith [fxBY.1, fxBY.2]
  · have hABY : ABY pFix = 2.73409886184 := by
      show (6.36619772368:ℝ)/2 - 0.254 + 0.555 - 0.75 = 2.73409886184
      norm_num
    rw [hABY, abs_lt]; constructor <;> norm_num
  · rw [abs_lt]; constructor <;> linarith [fxBCY.1, fxBCY.2]
  · rw [abs_lt]; constructor <;> linarith [fxRBXY.1, fxRBXY.2]
  · rw [abs_lt]; constructor <;> linarith [fxCDX.1, fxCDX.2]
  · rw [abs_lt]; constructor <;> linarith [fxCX.1, fxCX.2]
  · rw [abs_lt]; constructor <;> linarith [fxDX.1, fxDX.2]
  · rw [TANG_eq]
    show |(-(2:ℝ)/6.36619772368) - (-0.314159265)| < 1e-9
    rw [abs_lt]; constructor <;> norm_num
  · rw [abs_lt]; constructor <;> linarith [fxEX.1, fxEX.2]
  · rw [abs_lt]; constructor <;> linarith [fxFY.1, fxFY.2]
  · rw [abs_lt]; constructor <;> linarith [fxGY.1, fxGY.2]
  · rw [abs_lt]; constructor <;> linarith [fxFGX.1, fxFGX.2]

end

end Pulley
